import Mathlib

/-!
# go-hubspot: the Forms service of the Marketing API

A shallow embedding of `marketing.go` and `marketing_form.go`.

* Go values: a `string` is a `String`, a `bool` a `Bool`, an `int`/`int64` an `Int`,
  a pointer `*T` an `Option T` (`none` is `nil`), a slice `[]T` an `Option (List T)`
  (`none` is the nil slice, `some []` the empty non-nil slice), a
  `map[string]interface{}` an optional list of entries, and an `interface{}` value a
  value of a type parameter `Any`.
* The transport methods `Client.Get/Post/Patch/Delete` and the remaining fields of
  `Client` are declared outside these two files: the transport is a parameter, and so
  are the unknown fields.
* Objects reached through pointers that the code shares (`*Client`, `*FormServiceOp`)
  live in an explicit heap; every service method is a state-passing function that can
  end in a nil-dereference panic.
-/

set_option autoImplicit false

namespace Hubspot

/-! ## Go values -/

/-- A Go slice `[]T`: `none` is the nil slice, `some []` an empty, non-nil slice. -/
abbrev Slice (α : Type) : Type := Option (List α)

/-- A Go `map[string]interface{}`: `none` is the nil map, `some l` the map with the
entries `l`, listed in increasing key order (the order `encoding/json` writes them in). -/
abbrev GoMap (Any : Type) : Type := Option (List (String × Any))

/-! ## Resource schema (`marketing_form.go`, lines 12-171) -/

/-- FormFieldValidation represents validation rules for a form field. -/
structure FormFieldValidation where
  BlockedEmailDomains : Slice String
  UseDefaultBlockList : Bool
  deriving DecidableEq

/-- FormFieldOption represents an option for a form field. -/
structure FormFieldOption where
  Label : String
  Value : String
  deriving DecidableEq

/-- FormField represents a field in a HubSpot form. -/
structure FormField (Any : Type) where
  ObjectTypeId : String
  Name : String
  Label : String
  Required : Bool
  Hidden : Bool
  FieldType : String
  Validation : Option FormFieldValidation
  Placeholder : String
  HelpText : String
  Options : Slice FormFieldOption
  Properties : GoMap Any
  DependentFields : Slice String
  deriving DecidableEq

/-- FormFieldGroup represents a group of fields in a HubSpot form. -/
structure FormFieldGroup (Any : Type) where
  GroupType : String
  RichTextType : String
  Fields : Slice (FormField Any)
  deriving DecidableEq

/-- FormPostSubmitAction represents the action to take after form submission. -/
structure FormPostSubmitAction where
  Type_ : String
  Value : String
  deriving DecidableEq

/-- FormLifecycleStage represents a lifecycle stage for a form. -/
structure FormLifecycleStage where
  ObjectTypeId : String
  Value : String
  deriving DecidableEq

/-- FormConfiguration represents the configuration of a HubSpot form. -/
structure FormConfiguration where
  Language : String
  Cloneable : Bool
  PostSubmitAction : FormPostSubmitAction
  Editable : Bool
  Archivable : Bool
  RecaptchaEnabled : Bool
  NotifyContactOwner : Bool
  NotifyRecipients : Slice String
  CreateNewContactForNewEmail : Bool
  PrePopulateKnownValues : Bool
  AllowLinkToResetKnownValues : Bool
  LifecycleStages : Slice FormLifecycleStage
  deriving DecidableEq

/-- FormDisplayStyle represents the style of a HubSpot form. -/
structure FormDisplayStyle where
  FontFamily : String
  BackgroundWidth : String
  LabelTextColor : String
  LabelTextSize : String
  HelpTextColor : String
  HelpTextSize : String
  LegalConsentTextColor : String
  LegalConsentTextSize : String
  SubmitColor : String
  SubmitAlignment : String
  SubmitFontColor : String
  SubmitSize : String
  deriving DecidableEq

/-- FormDisplayOptions represents display options for a HubSpot form. -/
structure FormDisplayOptions where
  RenderRawHtml : Bool
  Theme : String
  SubmitButtonText : String
  Style : FormDisplayStyle
  CSSClass : String
  deriving DecidableEq

/-- CommunicationCheckbox represents a communication consent checkbox. -/
structure CommunicationCheckbox where
  Required : Bool
  SubscriptionTypeId : Int
  Label : String
  deriving DecidableEq

/-- LegalConsentOptions represents the legal consent options for a form submission. -/
structure LegalConsentOptions where
  Type_ : String
  CommunicationConsentText : String
  CommunicationsCheckboxes : Slice CommunicationCheckbox
  ConsentToProcessText : String
  ConsentToProcessCheckboxLabel : String
  PrivacyText : String
  Consent : String
  ConsentToProcess : Bool
  Text : String
  Communications : Slice String
  deriving DecidableEq

/-- Form represents a HubSpot form. -/
structure Form (Any : Type) where
  ID : String
  Name : String
  CreatedAt : String
  UpdatedAt : String
  Archived : Bool
  FieldGroups : Slice (FormFieldGroup Any)
  Configuration : FormConfiguration
  DisplayOptions : FormDisplayOptions
  LegalConsentOptions : Option LegalConsentOptions
  FormType : String
  Action : String
  Method : String
  RedirectURL : String
  Properties : GoMap Any
  deriving DecidableEq

/-- The anonymous struct of `FormResponse.Paging.Next`. -/
structure PagingNext where
  After : String
  deriving DecidableEq

/-- The anonymous struct of `FormResponse.Paging`. -/
structure Paging where
  Next : PagingNext
  deriving DecidableEq

/-- FormResponse represents the response from the HubSpot Forms API. -/
structure FormResponse (Any : Type) where
  Results : Slice (Form Any)
  Paging : Paging
  deriving DecidableEq

/-- FormSubmissionField represents a field in a form submission. -/
structure FormSubmissionField (Any : Type) where
  ObjectTypeId : String
  Name : String
  Value : Any
  deriving DecidableEq

/-- FormSubmissionContext represents the context of a form submission. -/
structure FormSubmissionContext where
  PageURI : String
  PageName : String
  IPAddress : String
  UserAgent : String
  Timestamp : Int
  Hutk : String
  deriving DecidableEq

/-- FormSubmission represents a form submission to HubSpot. -/
structure FormSubmission (Any : Type) where
  Fields : Slice (FormSubmissionField Any)
  Context : FormSubmissionContext
  LegalConsentOptions : Option LegalConsentOptions
  deriving DecidableEq

/-! ## Zero values (what `new(T)` points to) -/

/-- The zero `FormPostSubmitAction`. -/
def FormPostSubmitAction.zero : FormPostSubmitAction := { Type_ := "", Value := "" }

/-- The zero `FormConfiguration`. -/
def FormConfiguration.zero : FormConfiguration :=
  { Language := "", Cloneable := false, PostSubmitAction := FormPostSubmitAction.zero,
    Editable := false, Archivable := false, RecaptchaEnabled := false,
    NotifyContactOwner := false, NotifyRecipients := none,
    CreateNewContactForNewEmail := false, PrePopulateKnownValues := false,
    AllowLinkToResetKnownValues := false, LifecycleStages := none }

/-- The zero `FormDisplayStyle`. -/
def FormDisplayStyle.zero : FormDisplayStyle :=
  { FontFamily := "", BackgroundWidth := "", LabelTextColor := "", LabelTextSize := "",
    HelpTextColor := "", HelpTextSize := "", LegalConsentTextColor := "",
    LegalConsentTextSize := "", SubmitColor := "", SubmitAlignment := "",
    SubmitFontColor := "", SubmitSize := "" }

/-- The zero `FormDisplayOptions`. -/
def FormDisplayOptions.zero : FormDisplayOptions :=
  { RenderRawHtml := false, Theme := "", SubmitButtonText := "",
    Style := FormDisplayStyle.zero, CSSClass := "" }

/-- The zero `FormFieldValidation`. -/
def FormFieldValidation.zero : FormFieldValidation :=
  { BlockedEmailDomains := none, UseDefaultBlockList := false }

/-- The zero `FormFieldOption`. -/
def FormFieldOption.zero : FormFieldOption := { Label := "", Value := "" }

/-- The zero `FormLifecycleStage`. -/
def FormLifecycleStage.zero : FormLifecycleStage := { ObjectTypeId := "", Value := "" }

/-- The zero `CommunicationCheckbox`. -/
def CommunicationCheckbox.zero : CommunicationCheckbox :=
  { Required := false, SubscriptionTypeId := 0, Label := "" }

/-- The zero `LegalConsentOptions`. -/
def LegalConsentOptions.zero : LegalConsentOptions :=
  { Type_ := "", CommunicationConsentText := "", CommunicationsCheckboxes := none,
    ConsentToProcessText := "", ConsentToProcessCheckboxLabel := "", PrivacyText := "",
    Consent := "", ConsentToProcess := false, Text := "", Communications := none }

/-- The zero `FormField`. -/
def FormField.zero {Any : Type} : FormField Any :=
  { ObjectTypeId := "", Name := "", Label := "", Required := false, Hidden := false,
    FieldType := "", Validation := none, Placeholder := "", HelpText := "",
    Options := none, Properties := none, DependentFields := none }

/-- The zero `FormFieldGroup`. -/
def FormFieldGroup.zero {Any : Type} : FormFieldGroup Any :=
  { GroupType := "", RichTextType := "", Fields := none }

/-- The zero `Form`. -/
def Form.zero {Any : Type} : Form Any :=
  { ID := "", Name := "", CreatedAt := "", UpdatedAt := "", Archived := false,
    FieldGroups := none, Configuration := FormConfiguration.zero,
    DisplayOptions := FormDisplayOptions.zero, LegalConsentOptions := none,
    FormType := "", Action := "", Method := "", RedirectURL := "", Properties := none }

/-- The zero `FormResponse`. -/
def FormResponse.zero {Any : Type} : FormResponse Any :=
  { Results := none, Paging := { Next := { After := "" } } }

/-- The zero `FormSubmissionContext`. -/
def FormSubmissionContext.zero : FormSubmissionContext :=
  { PageURI := "", PageName := "", IPAddress := "", UserAgent := "", Timestamp := 0,
    Hutk := "" }

/-- The zero `FormSubmission`. -/
def FormSubmission.zero {Any : Type} : FormSubmission Any :=
  { Fields := none, Context := FormSubmissionContext.zero, LegalConsentOptions := none }

/-! ## JSON values and the `encoding/json` rules the struct tags select

The encoder and decoder are modelled on JSON values, not on their text: a value is
what `json.Marshal` writes, and what `json.Unmarshal` reads, once the text is
tokenised. Strings are sequences of Unicode characters. -/

/-- A JSON number literal: an integer literal, or a literal with a fraction or an
exponent. -/
inductive JNumber where
  | int (n : Int)
  | other (literal : String)
  deriving DecidableEq

/-- A JSON value; the members of an object are in the order of the text. -/
inductive JSON where
  | null
  | bool (b : Bool)
  | num (n : JNumber)
  | str (s : String)
  | arr (elems : List JSON)
  | obj (members : List (String × JSON))

/-- The kind of a JSON value, as `UnmarshalTypeError.Value` names it. -/
def JSON.kind : JSON → String
  | .null => "null"
  | .bool _ => "bool"
  | .num _ => "number"
  | .str _ => "string"
  | .arr _ => "array"
  | .obj _ => "object"

/-- Whether a JSON value is `null`. -/
def JSON.isNull : JSON → Bool
  | .null => true
  | _ => false

/-- The value of the first member with the given name. -/
def lookupMember (key : String) : List (String × JSON) → Option JSON
  | [] => none
  | (k, v) :: ms => if k = key then some v else lookupMember key ms

/-- The value of the first member with the given name, of an object. -/
def JSON.member? (j : JSON) (key : String) : Option JSON :=
  match j with
  | .obj ms => lookupMember key ms
  | _ => none

/-! ### Encoding -/

/-- A struct field without `omitempty`: always one member. -/
def field (tag : String) (v : JSON) : List (String × JSON) := [(tag, v)]

/-- A struct field tagged `omitempty`: no member when the value is empty. -/
def fieldOmitEmpty (tag : String) (empty : Bool) (v : JSON) : List (String × JSON) :=
  if empty then [] else [(tag, v)]

/-- The members of a struct, field after field in the order of declaration. -/
def members (fs : List (List (String × JSON))) : List (String × JSON) :=
  fs.foldr (fun f rest => f ++ rest) []

/-- Emptiness of a string for `omitempty`: length zero. -/
def emptyString (s : String) : Bool := decide (s = "")

/-- Emptiness of a bool for `omitempty`: false. -/
def emptyBool (b : Bool) : Bool := !b

/-- Emptiness of an integer for `omitempty`: zero. -/
def emptyInt (n : Int) : Bool := decide (n = 0)

/-- Emptiness of a pointer for `omitempty`: nil. -/
def emptyPtr {α : Type} (p : Option α) : Bool := p.isNone

/-- Emptiness of a slice or map for `omitempty`: length zero (nil included). -/
def emptyLen {α : Type} : Option (List α) → Bool
  | none => true
  | some l => l.isEmpty

/-- Encoding of a slice: `null` for the nil slice, else an array. -/
def encSlice {α : Type} (enc : α → JSON) : Slice α → JSON
  | none => .null
  | some l => .arr (l.map enc)

/-- Encoding of a pointer: `null` for nil, else the encoding of the pointee. -/
def encPtr {α : Type} (enc : α → JSON) : Option α → JSON
  | none => .null
  | some v => enc v

/-- Encoding of a `map[string]interface{}`: `null` for the nil map, else an object with
the entries in key order. -/
def encMap {Any : Type} (encAny : Any → JSON) : GoMap Any → JSON
  | none => .null
  | some l => .obj (l.map (fun kv => (kv.1, encAny kv.2)))

/-! ### Decoding -/

/-- The error `json.UnmarshalTypeError`: a JSON value that does not fit the Go type. -/
structure UnmarshalTypeError where
  Value : String
  GoType : String
  deriving DecidableEq

/-- Decoding into an existing Go value: the new value, and the type error saved, if
any. Unmarshal goes on after a type error and reports the first one. -/
abbrev Dec (α : Type) : Type := JSON → α → α × Option UnmarshalTypeError

/-- The first saved error wins (`saveError`). -/
def firstErr (a b : Option UnmarshalTypeError) : Option UnmarshalTypeError :=
  match a with
  | some e => some e
  | none => b

/-- Decoding into a `string`. -/
def decString : Dec String
  | .str s, _ => (s, none)
  | .null, cur => (cur, none)
  | j, cur => (cur, some { Value := j.kind, GoType := "string" })

/-- Decoding into a `bool`. -/
def decBool : Dec Bool
  | .bool b, _ => (b, none)
  | .null, cur => (cur, none)
  | j, cur => (cur, some { Value := j.kind, GoType := "bool" })

/-- Decoding into an `int` or `int64` (64 bits): an integer literal in range. -/
def decInt : Dec Int
  | .num (.int n), cur =>
    if -(2 ^ 63) ≤ n ∧ n < 2 ^ 63 then (n, none)
    else (cur, some { Value := "number", GoType := "int64" })
  | .null, cur => (cur, none)
  | j, cur => (cur, some { Value := j.kind, GoType := "int64" })

/-- Decoding into a pointer: `null` sets nil; otherwise a nil pointer is first pointed
at a zero value, and the value is decoded into the pointee. -/
def decPtr {α : Type} (d : Dec α) (zero : α) : Dec (Option α)
  | .null, _ => (none, none)
  | j, cur => (some (d j (cur.getD zero)).1, (d j (cur.getD zero)).2)

/-- Decoding the elements of an array into a slice: element `i` is decoded into the
existing element `i`, or into a zero value past the old length (as for a slice without
spare capacity; every slice decoded into here starts nil). -/
def decElems {α : Type} (d : Dec α) (zero : α) :
    List JSON → List α → List α × Option UnmarshalTypeError
  | [], _ => ([], none)
  | j :: js, cur =>
    ((d j (cur.headD zero)).1 :: (decElems d zero js cur.tail).1,
     firstErr (d j (cur.headD zero)).2 (decElems d zero js cur.tail).2)

/-- Decoding into a slice: `null` sets nil, an array sets a non-nil slice of its
length. -/
def decSlice {α : Type} (d : Dec α) (zero : α) : Dec (Slice α)
  | .null, _ => (none, none)
  | .arr js, cur =>
    (some (decElems d zero js (cur.getD [])).1, (decElems d zero js (cur.getD [])).2)
  | j, cur => (cur, some { Value := j.kind, GoType := "slice" })

/-- Assignment `m[key] = v` on the entries of a map, kept in key order. -/
def mapInsert {Any : Type} (key : String) (v : Any) :
    List (String × Any) → List (String × Any)
  | [] => [(key, v)]
  | (k, w) :: rest =>
    if key < k then (key, v) :: (k, w) :: rest
    else if key = k then (k, v) :: rest
    else (k, w) :: mapInsert key v rest

/-- Decoding into a `map[string]interface{}`: `null` sets nil; an object makes the map
if it is nil and assigns its members, in order, each decoded into a fresh
`interface{}`. -/
def decMap {Any : Type} (decAny : JSON → Any) : Dec (GoMap Any)
  | .null, _ => (none, none)
  | .obj ms, cur =>
    (some (ms.foldl (fun m kv => mapInsert kv.1 (decAny kv.2) m) (cur.getD [])), none)
  | j, cur => (cur, some { Value := j.kind, GoType := "map[string]interface {}" })

/-- Case folding of a character of a member name, for the comparison with the (ASCII)
field names: ASCII letters in upper case, and the two non-ASCII characters that fold
to an ASCII letter (U+212A to K, U+017F to S). -/
def foldChar (c : Char) : Char :=
  if c = Char.ofNat 0x212A then 'K'
  else if c = Char.ofNat 0x017F then 'S'
  else c.toUpper

/-- The function `foldName` on a name. -/
def foldName (s : String) : List Char := s.data.map foldChar

/-- Index of the first name that satisfies `p`, counting from `i`. -/
def findTag (p : String → Bool) : List String → Nat → Option Nat
  | [], _ => none
  | t :: ts, i => if p t then some i else findTag p ts (i + 1)

/-- The struct field a member name selects: the field whose name is the same, else the
first field whose name is the same up to case; `none` when the member is ignored. -/
def matchField (tags : List String) (key : String) : Option Nat :=
  match findTag (fun t => decide (t = key)) tags 0 with
  | some i => some i
  | none => findTag (fun t => decide (foldName t = foldName key)) tags 0

/-- The outcome of decoding into one field: the struct with that field replaced, and
the error of the field. -/
def assign {α β : Type} (r : β × Option UnmarshalTypeError) (put : β → α) :
    α × Option UnmarshalTypeError :=
  (put r.1, r.2)

/-- How a field of a struct takes a JSON value: the struct after the assignment and the
type error of the value, if any. -/
abbrev Setter (α : Type) : Type := JSON → α → α × Option UnmarshalTypeError

/-- The fields of a struct type as `encoding/json` sees them: the JSON name of the
struct tag and the setter of the field, in the order of declaration. -/
abbrev FieldTable (α : Type) : Type := List (String × Setter α)

/-- A member that selects no field is skipped. -/
def noField {α : Type} : Setter α := fun _ x => (x, none)

/-- The setter that a member name selects. -/
def fieldSetter {α : Type} (fields : FieldTable α) (key : String) : Setter α :=
  match matchField (fields.map Prod.fst) key with
  | some i =>
    match fields[i]? with
    | some f => f.2
    | none => noField
  | none => noField

/-- Decoding into a struct: an object assigns its members in order, each to the field
its name selects; `null` has no effect. -/
def decStruct {α : Type} (goType : String) (fields : FieldTable α) : Dec α
  | .obj ms, cur =>
    ms.foldl (fun acc kv => ((fieldSetter fields kv.1 kv.2 acc.1).1,
                             firstErr acc.2 (fieldSetter fields kv.1 kv.2 acc.1).2)) (cur, none)
  | .null, cur => (cur, none)
  | j, cur => (cur, some { Value := j.kind, GoType := goType })

/-! ### The encoders of the schema -/

/-- JSON encoding of a `FormFieldValidation`, by its struct tags. -/
def encFormFieldValidation (x : FormFieldValidation) : JSON :=
  .obj (members [
    fieldOmitEmpty "blockedEmailDomains" (emptyLen x.BlockedEmailDomains)
      (encSlice JSON.str x.BlockedEmailDomains),
    fieldOmitEmpty "useDefaultBlockList" (emptyBool x.UseDefaultBlockList)
      (.bool x.UseDefaultBlockList)])

/-- JSON encoding of a `FormFieldOption`, by its struct tags. -/
def encFormFieldOption (x : FormFieldOption) : JSON :=
  .obj (members [
    field "label" (.str x.Label),
    field "value" (.str x.Value)])

/-- JSON encoding of a `FormField`, by its struct tags. -/
def encFormField {Any : Type} (encAny : Any → JSON) (x : FormField Any) : JSON :=
  .obj (members [
    field "objectTypeId" (.str x.ObjectTypeId),
    field "name" (.str x.Name),
    field "label" (.str x.Label),
    field "required" (.bool x.Required),
    field "hidden" (.bool x.Hidden),
    field "fieldType" (.str x.FieldType),
    fieldOmitEmpty "validation" (emptyPtr x.Validation) (encPtr encFormFieldValidation x.Validation),
    fieldOmitEmpty "placeholder" (emptyString x.Placeholder) (.str x.Placeholder),
    fieldOmitEmpty "helpText" (emptyString x.HelpText) (.str x.HelpText),
    fieldOmitEmpty "options" (emptyLen x.Options) (encSlice encFormFieldOption x.Options),
    fieldOmitEmpty "properties" (emptyLen x.Properties) (encMap encAny x.Properties),
    fieldOmitEmpty "dependentFields" (emptyLen x.DependentFields)
      (encSlice JSON.str x.DependentFields)])

/-- JSON encoding of a `FormFieldGroup`, by its struct tags. -/
def encFormFieldGroup {Any : Type} (encAny : Any → JSON) (x : FormFieldGroup Any) : JSON :=
  .obj (members [
    field "groupType" (.str x.GroupType),
    field "richTextType" (.str x.RichTextType),
    field "fields" (encSlice (encFormField encAny) x.Fields)])

/-- JSON encoding of a `FormPostSubmitAction`, by its struct tags. -/
def encFormPostSubmitAction (x : FormPostSubmitAction) : JSON :=
  .obj (members [
    field "type" (.str x.Type_),
    field "value" (.str x.Value)])

/-- JSON encoding of a `FormLifecycleStage`, by its struct tags. -/
def encFormLifecycleStage (x : FormLifecycleStage) : JSON :=
  .obj (members [
    field "objectTypeId" (.str x.ObjectTypeId),
    field "value" (.str x.Value)])

/-- JSON encoding of a `FormConfiguration`, by its struct tags. -/
def encFormConfiguration (x : FormConfiguration) : JSON :=
  .obj (members [
    field "language" (.str x.Language),
    field "cloneable" (.bool x.Cloneable),
    field "postSubmitAction" (encFormPostSubmitAction x.PostSubmitAction),
    field "editable" (.bool x.Editable),
    field "archivable" (.bool x.Archivable),
    field "recaptchaEnabled" (.bool x.RecaptchaEnabled),
    field "notifyContactOwner" (.bool x.NotifyContactOwner),
    field "notifyRecipients" (encSlice JSON.str x.NotifyRecipients),
    field "createNewContactForNewEmail" (.bool x.CreateNewContactForNewEmail),
    field "prePopulateKnownValues" (.bool x.PrePopulateKnownValues),
    field "allowLinkToResetKnownValues" (.bool x.AllowLinkToResetKnownValues),
    field "lifecycleStages" (encSlice encFormLifecycleStage x.LifecycleStages)])

/-- JSON encoding of a `FormDisplayStyle`, by its struct tags. -/
def encFormDisplayStyle (x : FormDisplayStyle) : JSON :=
  .obj (members [
    field "fontFamily" (.str x.FontFamily),
    field "backgroundWidth" (.str x.BackgroundWidth),
    field "labelTextColor" (.str x.LabelTextColor),
    field "labelTextSize" (.str x.LabelTextSize),
    field "helpTextColor" (.str x.HelpTextColor),
    field "helpTextSize" (.str x.HelpTextSize),
    field "legalConsentTextColor" (.str x.LegalConsentTextColor),
    field "legalConsentTextSize" (.str x.LegalConsentTextSize),
    field "submitColor" (.str x.SubmitColor),
    field "submitAlignment" (.str x.SubmitAlignment),
    field "submitFontColor" (.str x.SubmitFontColor),
    field "submitSize" (.str x.SubmitSize)])

/-- JSON encoding of a `FormDisplayOptions`, by its struct tags. -/
def encFormDisplayOptions (x : FormDisplayOptions) : JSON :=
  .obj (members [
    field "renderRawHtml" (.bool x.RenderRawHtml),
    field "theme" (.str x.Theme),
    field "submitButtonText" (.str x.SubmitButtonText),
    field "style" (encFormDisplayStyle x.Style),
    field "cssClass" (.str x.CSSClass)])

/-- JSON encoding of a `CommunicationCheckbox`, by its struct tags. -/
def encCommunicationCheckbox (x : CommunicationCheckbox) : JSON :=
  .obj (members [
    field "required" (.bool x.Required),
    field "subscriptionTypeId" (.num (.int x.SubscriptionTypeId)),
    field "label" (.str x.Label)])

/-- JSON encoding of a `LegalConsentOptions`, by its struct tags. -/
def encLegalConsentOptions (x : LegalConsentOptions) : JSON :=
  .obj (members [
    field "type" (.str x.Type_),
    field "communicationConsentText" (.str x.CommunicationConsentText),
    field "communicationsCheckboxes" (encSlice encCommunicationCheckbox x.CommunicationsCheckboxes),
    field "consentToProcessText" (.str x.ConsentToProcessText),
    field "consentToProcessCheckboxLabel" (.str x.ConsentToProcessCheckboxLabel),
    field "privacyText" (.str x.PrivacyText),
    fieldOmitEmpty "consent" (emptyString x.Consent) (.str x.Consent),
    fieldOmitEmpty "consentToProcess" (emptyBool x.ConsentToProcess) (.bool x.ConsentToProcess),
    fieldOmitEmpty "text" (emptyString x.Text) (.str x.Text),
    fieldOmitEmpty "communications" (emptyLen x.Communications) (encSlice JSON.str x.Communications)])

/-- JSON encoding of a `Form`, by its struct tags. -/
def encForm {Any : Type} (encAny : Any → JSON) (x : Form Any) : JSON :=
  .obj (members [
    fieldOmitEmpty "id" (emptyString x.ID) (.str x.ID),
    field "name" (.str x.Name),
    fieldOmitEmpty "createdAt" (emptyString x.CreatedAt) (.str x.CreatedAt),
    fieldOmitEmpty "updatedAt" (emptyString x.UpdatedAt) (.str x.UpdatedAt),
    fieldOmitEmpty "archived" (emptyBool x.Archived) (.bool x.Archived),
    field "fieldGroups" (encSlice (encFormFieldGroup encAny) x.FieldGroups),
    field "configuration" (encFormConfiguration x.Configuration),
    field "displayOptions" (encFormDisplayOptions x.DisplayOptions),
    fieldOmitEmpty "legalConsentOptions" (emptyPtr x.LegalConsentOptions)
      (encPtr encLegalConsentOptions x.LegalConsentOptions),
    fieldOmitEmpty "formType" (emptyString x.FormType) (.str x.FormType),
    fieldOmitEmpty "action" (emptyString x.Action) (.str x.Action),
    fieldOmitEmpty "method" (emptyString x.Method) (.str x.Method),
    fieldOmitEmpty "redirectUrl" (emptyString x.RedirectURL) (.str x.RedirectURL),
    fieldOmitEmpty "properties" (emptyLen x.Properties) (encMap encAny x.Properties)])

/-- JSON encoding of the struct `FormResponse.Paging.Next`, by its struct tags. -/
def encPagingNext (x : PagingNext) : JSON :=
  .obj (members [
    field "after" (.str x.After)])

/-- JSON encoding of the struct `FormResponse.Paging`, by its struct tags. -/
def encPaging (x : Paging) : JSON :=
  .obj (members [
    field "next" (encPagingNext x.Next)])

/-- JSON encoding of a `FormResponse`, by its struct tags. -/
def encFormResponse {Any : Type} (encAny : Any → JSON) (x : FormResponse Any) : JSON :=
  .obj (members [
    field "results" (encSlice (encForm encAny) x.Results),
    field "paging" (encPaging x.Paging)])

/-- JSON encoding of a `FormSubmissionField`, by its struct tags. -/
def encFormSubmissionField {Any : Type} (encAny : Any → JSON) (x : FormSubmissionField Any) : JSON :=
  .obj (members [
    field "objectTypeId" (.str x.ObjectTypeId),
    field "name" (.str x.Name),
    field "value" (encAny x.Value)])

/-- JSON encoding of a `FormSubmissionContext`, by its struct tags. -/
def encFormSubmissionContext (x : FormSubmissionContext) : JSON :=
  .obj (members [
    field "pageUri" (.str x.PageURI),
    field "pageName" (.str x.PageName),
    fieldOmitEmpty "ipAddress" (emptyString x.IPAddress) (.str x.IPAddress),
    fieldOmitEmpty "userAgent" (emptyString x.UserAgent) (.str x.UserAgent),
    fieldOmitEmpty "timestamp" (emptyInt x.Timestamp) (.num (.int x.Timestamp)),
    fieldOmitEmpty "hutk" (emptyString x.Hutk) (.str x.Hutk)])

/-- JSON encoding of a `FormSubmission`, by its struct tags. -/
def encFormSubmission {Any : Type} (encAny : Any → JSON) (x : FormSubmission Any) : JSON :=
  .obj (members [
    field "fields" (encSlice (encFormSubmissionField encAny) x.Fields),
    field "context" (encFormSubmissionContext x.Context),
    fieldOmitEmpty "legalConsentOptions" (emptyPtr x.LegalConsentOptions)
      (encPtr encLegalConsentOptions x.LegalConsentOptions)])

/-! ### Marshal and its error

`json.Marshal` fails when it meets a value it does not support (a `float64` NaN or
infinity, a channel, a function, ...). In the schema such a value can only sit behind an
`interface{}`, so the parameter `marshalAny` decides: it gives what Marshal writes for a
dynamic value, or the error. The encoders above, with a total `encAny`, are what
Marshal writes when it succeeds. -/

/-- An error of `json.Marshal`: `UnsupportedValueError` or `UnsupportedTypeError`. -/
inductive MarshalError where
  | unsupported
  deriving DecidableEq

/-- What Marshal writes for a dynamic value it supports. -/
def written {Any : Type} (marshalAny : Any → Except MarshalError JSON) (v : Any) : JSON :=
  match marshalAny v with
  | .ok j => j
  | .error _ => .null

/-- Marshal on the entries of a map, in key order; the first error ends it. -/
def marshalEntries {Any : Type} (marshalAny : Any → Except MarshalError JSON) :
    List (String × Any) → Except MarshalError (List (String × JSON))
  | [] => .ok []
  | kv :: rest =>
    match marshalAny kv.2 with
    | .error e => .error e
    | .ok j =>
      match marshalEntries marshalAny rest with
      | .error e => .error e
      | .ok ms => .ok ((kv.1, j) :: ms)

/-- Marshal on a `map[string]interface{}`. -/
def marshalMap {Any : Type} (marshalAny : Any → Except MarshalError JSON) :
    GoMap Any → Except MarshalError JSON
  | none => .ok .null
  | some l =>
    match marshalEntries marshalAny l with
    | .error e => .error e
    | .ok ms => .ok (.obj ms)

/-- Marshal on the elements of a slice, in order; the first error ends it. -/
def marshalElems {α : Type} (m : α → Except MarshalError JSON) :
    List α → Except MarshalError (List JSON)
  | [] => .ok []
  | x :: rest =>
    match m x with
    | .error e => .error e
    | .ok j =>
      match marshalElems m rest with
      | .error e => .error e
      | .ok js => .ok (j :: js)

/-- Marshal on a slice. -/
def marshalSlice {α : Type} (m : α → Except MarshalError JSON) :
    Slice α → Except MarshalError JSON
  | none => .ok .null
  | some l =>
    match marshalElems m l with
    | .error e => .error e
    | .ok js => .ok (.arr js)

/-- Marshal on a `FormField`: the members of `encFormField`, with the error of the
`Properties` map. -/
def marshalFormField {Any : Type} (marshalAny : Any → Except MarshalError JSON)
    (x : FormField Any) : Except MarshalError JSON :=
  match marshalMap marshalAny x.Properties with
  | .error e => .error e
  | .ok properties =>
    .ok (.obj (members [
      field "objectTypeId" (.str x.ObjectTypeId),
      field "name" (.str x.Name),
      field "label" (.str x.Label),
      field "required" (.bool x.Required),
      field "hidden" (.bool x.Hidden),
      field "fieldType" (.str x.FieldType),
      fieldOmitEmpty "validation" (emptyPtr x.Validation)
        (encPtr encFormFieldValidation x.Validation),
      fieldOmitEmpty "placeholder" (emptyString x.Placeholder) (.str x.Placeholder),
      fieldOmitEmpty "helpText" (emptyString x.HelpText) (.str x.HelpText),
      fieldOmitEmpty "options" (emptyLen x.Options) (encSlice encFormFieldOption x.Options),
      fieldOmitEmpty "properties" (emptyLen x.Properties) properties,
      fieldOmitEmpty "dependentFields" (emptyLen x.DependentFields)
        (encSlice JSON.str x.DependentFields)]))

/-- Marshal on a `FormFieldGroup`: the members of `encFormFieldGroup`, with the error of
the fields. -/
def marshalFormFieldGroup {Any : Type} (marshalAny : Any → Except MarshalError JSON)
    (x : FormFieldGroup Any) : Except MarshalError JSON :=
  match marshalSlice (marshalFormField marshalAny) x.Fields with
  | .error e => .error e
  | .ok fields =>
    .ok (.obj (members [
      field "groupType" (.str x.GroupType),
      field "richTextType" (.str x.RichTextType),
      field "fields" fields]))

/-- Marshal on a `Form`, the call `json.Marshal(form)`: the members of `encForm`, with
the error of the field groups or else of the `Properties` map. -/
def marshalForm {Any : Type} (marshalAny : Any → Except MarshalError JSON)
    (x : Form Any) : Except MarshalError JSON :=
  match marshalSlice (marshalFormFieldGroup marshalAny) x.FieldGroups with
  | .error e => .error e
  | .ok fieldGroups =>
    match marshalMap marshalAny x.Properties with
    | .error e => .error e
    | .ok properties =>
      .ok (.obj (members [
        fieldOmitEmpty "id" (emptyString x.ID) (.str x.ID),
        field "name" (.str x.Name),
        fieldOmitEmpty "createdAt" (emptyString x.CreatedAt) (.str x.CreatedAt),
        fieldOmitEmpty "updatedAt" (emptyString x.UpdatedAt) (.str x.UpdatedAt),
        fieldOmitEmpty "archived" (emptyBool x.Archived) (.bool x.Archived),
        field "fieldGroups" fieldGroups,
        field "configuration" (encFormConfiguration x.Configuration),
        field "displayOptions" (encFormDisplayOptions x.DisplayOptions),
        fieldOmitEmpty "legalConsentOptions" (emptyPtr x.LegalConsentOptions)
          (encPtr encLegalConsentOptions x.LegalConsentOptions),
        fieldOmitEmpty "formType" (emptyString x.FormType) (.str x.FormType),
        fieldOmitEmpty "action" (emptyString x.Action) (.str x.Action),
        fieldOmitEmpty "method" (emptyString x.Method) (.str x.Method),
        fieldOmitEmpty "redirectUrl" (emptyString x.RedirectURL) (.str x.RedirectURL),
        fieldOmitEmpty "properties" (emptyLen x.Properties) properties]))

/-! ### The decoders of the schema -/

/-- The fields of a `FormFieldValidation`: JSON names and setters. -/
def FormFieldValidation.fieldTable : FieldTable (FormFieldValidation) :=
  [("blockedEmailDomains", fun v x =>
      assign (decSlice decString "" v x.BlockedEmailDomains)
        (fun a => { x with BlockedEmailDomains := a })),
   ("useDefaultBlockList", fun v x =>
      assign (decBool v x.UseDefaultBlockList)
        (fun a => { x with UseDefaultBlockList := a }))]

/-- Decoding into a `FormFieldValidation`. -/
def decFormFieldValidation : Dec FormFieldValidation :=
  decStruct "FormFieldValidation" FormFieldValidation.fieldTable

/-- The fields of a `FormFieldOption`: JSON names and setters. -/
def FormFieldOption.fieldTable : FieldTable (FormFieldOption) :=
  [("label", fun v x => assign (decString v x.Label) (fun a => { x with Label := a })),
   ("value", fun v x => assign (decString v x.Value) (fun a => { x with Value := a }))]

/-- Decoding into a `FormFieldOption`. -/
def decFormFieldOption : Dec FormFieldOption :=
  decStruct "FormFieldOption" FormFieldOption.fieldTable

/-- The fields of a `FormField`: JSON names and setters. -/
def FormField.fieldTable {Any : Type} (decAny : JSON → Any) : FieldTable (FormField Any) :=
  [("objectTypeId", fun v x =>
      assign (decString v x.ObjectTypeId)
        (fun a => { x with ObjectTypeId := a })),
   ("name", fun v x => assign (decString v x.Name) (fun a => { x with Name := a })),
   ("label", fun v x => assign (decString v x.Label) (fun a => { x with Label := a })),
   ("required", fun v x => assign (decBool v x.Required) (fun a => { x with Required := a })),
   ("hidden", fun v x => assign (decBool v x.Hidden) (fun a => { x with Hidden := a })),
   ("fieldType", fun v x =>
      assign (decString v x.FieldType)
        (fun a => { x with FieldType := a })),
   ("validation", fun v x =>
      assign (decPtr decFormFieldValidation FormFieldValidation.zero v x.Validation)
        (fun a => { x with Validation := a })),
   ("placeholder", fun v x =>
      assign (decString v x.Placeholder)
        (fun a => { x with Placeholder := a })),
   ("helpText", fun v x => assign (decString v x.HelpText) (fun a => { x with HelpText := a })),
   ("options", fun v x =>
      assign (decSlice decFormFieldOption FormFieldOption.zero v x.Options)
        (fun a => { x with Options := a })),
   ("properties", fun v x =>
      assign (decMap decAny v x.Properties)
        (fun a => { x with Properties := a })),
   ("dependentFields", fun v x =>
      assign (decSlice decString "" v x.DependentFields)
        (fun a => { x with DependentFields := a }))]

/-- Decoding into a `FormField`. -/
def decFormField {Any : Type} (decAny : JSON → Any) : Dec (FormField Any) :=
  decStruct "FormField" (FormField.fieldTable decAny)

/-- The fields of a `FormFieldGroup`: JSON names and setters. -/
def FormFieldGroup.fieldTable {Any : Type} (decAny : JSON → Any) : FieldTable (FormFieldGroup Any) :=
  [("groupType", fun v x =>
      assign (decString v x.GroupType)
        (fun a => { x with GroupType := a })),
   ("richTextType", fun v x =>
      assign (decString v x.RichTextType)
        (fun a => { x with RichTextType := a })),
   ("fields", fun v x =>
      assign (decSlice (decFormField decAny) FormField.zero v x.Fields)
        (fun a => { x with Fields := a }))]

/-- Decoding into a `FormFieldGroup`. -/
def decFormFieldGroup {Any : Type} (decAny : JSON → Any) : Dec (FormFieldGroup Any) :=
  decStruct "FormFieldGroup" (FormFieldGroup.fieldTable decAny)

/-- The fields of a `FormPostSubmitAction`: JSON names and setters. -/
def FormPostSubmitAction.fieldTable : FieldTable (FormPostSubmitAction) :=
  [("type", fun v x => assign (decString v x.Type_) (fun a => { x with Type_ := a })),
   ("value", fun v x => assign (decString v x.Value) (fun a => { x with Value := a }))]

/-- Decoding into a `FormPostSubmitAction`. -/
def decFormPostSubmitAction : Dec FormPostSubmitAction :=
  decStruct "FormPostSubmitAction" FormPostSubmitAction.fieldTable

/-- The fields of a `FormLifecycleStage`: JSON names and setters. -/
def FormLifecycleStage.fieldTable : FieldTable (FormLifecycleStage) :=
  [("objectTypeId", fun v x =>
      assign (decString v x.ObjectTypeId)
        (fun a => { x with ObjectTypeId := a })),
   ("value", fun v x => assign (decString v x.Value) (fun a => { x with Value := a }))]

/-- Decoding into a `FormLifecycleStage`. -/
def decFormLifecycleStage : Dec FormLifecycleStage :=
  decStruct "FormLifecycleStage" FormLifecycleStage.fieldTable

/-- The fields of a `FormConfiguration`: JSON names and setters. -/
def FormConfiguration.fieldTable : FieldTable (FormConfiguration) :=
  [("language", fun v x => assign (decString v x.Language) (fun a => { x with Language := a })),
   ("cloneable", fun v x => assign (decBool v x.Cloneable) (fun a => { x with Cloneable := a })),
   ("postSubmitAction", fun v x =>
      assign (decFormPostSubmitAction v x.PostSubmitAction)
        (fun a => { x with PostSubmitAction := a })),
   ("editable", fun v x => assign (decBool v x.Editable) (fun a => { x with Editable := a })),
   ("archivable", fun v x =>
      assign (decBool v x.Archivable)
        (fun a => { x with Archivable := a })),
   ("recaptchaEnabled", fun v x =>
      assign (decBool v x.RecaptchaEnabled)
        (fun a => { x with RecaptchaEnabled := a })),
   ("notifyContactOwner", fun v x =>
      assign (decBool v x.NotifyContactOwner)
        (fun a => { x with NotifyContactOwner := a })),
   ("notifyRecipients", fun v x =>
      assign (decSlice decString "" v x.NotifyRecipients)
        (fun a => { x with NotifyRecipients := a })),
   ("createNewContactForNewEmail", fun v x =>
      assign (decBool v x.CreateNewContactForNewEmail)
        (fun a => { x with CreateNewContactForNewEmail := a })),
   ("prePopulateKnownValues", fun v x =>
      assign (decBool v x.PrePopulateKnownValues)
        (fun a => { x with PrePopulateKnownValues := a })),
   ("allowLinkToResetKnownValues", fun v x =>
      assign (decBool v x.AllowLinkToResetKnownValues)
        (fun a => { x with AllowLinkToResetKnownValues := a })),
   ("lifecycleStages", fun v x =>
      assign (decSlice decFormLifecycleStage FormLifecycleStage.zero v x.LifecycleStages)
        (fun a => { x with LifecycleStages := a }))]

/-- Decoding into a `FormConfiguration`. -/
def decFormConfiguration : Dec FormConfiguration :=
  decStruct "FormConfiguration" FormConfiguration.fieldTable

/-- The fields of a `FormDisplayStyle`: JSON names and setters. -/
def FormDisplayStyle.fieldTable : FieldTable (FormDisplayStyle) :=
  [("fontFamily", fun v x =>
      assign (decString v x.FontFamily)
        (fun a => { x with FontFamily := a })),
   ("backgroundWidth", fun v x =>
      assign (decString v x.BackgroundWidth)
        (fun a => { x with BackgroundWidth := a })),
   ("labelTextColor", fun v x =>
      assign (decString v x.LabelTextColor)
        (fun a => { x with LabelTextColor := a })),
   ("labelTextSize", fun v x =>
      assign (decString v x.LabelTextSize)
        (fun a => { x with LabelTextSize := a })),
   ("helpTextColor", fun v x =>
      assign (decString v x.HelpTextColor)
        (fun a => { x with HelpTextColor := a })),
   ("helpTextSize", fun v x =>
      assign (decString v x.HelpTextSize)
        (fun a => { x with HelpTextSize := a })),
   ("legalConsentTextColor", fun v x =>
      assign (decString v x.LegalConsentTextColor)
        (fun a => { x with LegalConsentTextColor := a })),
   ("legalConsentTextSize", fun v x =>
      assign (decString v x.LegalConsentTextSize)
        (fun a => { x with LegalConsentTextSize := a })),
   ("submitColor", fun v x =>
      assign (decString v x.SubmitColor)
        (fun a => { x with SubmitColor := a })),
   ("submitAlignment", fun v x =>
      assign (decString v x.SubmitAlignment)
        (fun a => { x with SubmitAlignment := a })),
   ("submitFontColor", fun v x =>
      assign (decString v x.SubmitFontColor)
        (fun a => { x with SubmitFontColor := a })),
   ("submitSize", fun v x =>
      assign (decString v x.SubmitSize)
        (fun a => { x with SubmitSize := a }))]

/-- Decoding into a `FormDisplayStyle`. -/
def decFormDisplayStyle : Dec FormDisplayStyle :=
  decStruct "FormDisplayStyle" FormDisplayStyle.fieldTable

/-- The fields of a `FormDisplayOptions`: JSON names and setters. -/
def FormDisplayOptions.fieldTable : FieldTable (FormDisplayOptions) :=
  [("renderRawHtml", fun v x =>
      assign (decBool v x.RenderRawHtml)
        (fun a => { x with RenderRawHtml := a })),
   ("theme", fun v x => assign (decString v x.Theme) (fun a => { x with Theme := a })),
   ("submitButtonText", fun v x =>
      assign (decString v x.SubmitButtonText)
        (fun a => { x with SubmitButtonText := a })),
   ("style", fun v x => assign (decFormDisplayStyle v x.Style) (fun a => { x with Style := a })),
   ("cssClass", fun v x => assign (decString v x.CSSClass) (fun a => { x with CSSClass := a }))]

/-- Decoding into a `FormDisplayOptions`. -/
def decFormDisplayOptions : Dec FormDisplayOptions :=
  decStruct "FormDisplayOptions" FormDisplayOptions.fieldTable

/-- The fields of a `CommunicationCheckbox`: JSON names and setters. -/
def CommunicationCheckbox.fieldTable : FieldTable (CommunicationCheckbox) :=
  [("required", fun v x => assign (decBool v x.Required) (fun a => { x with Required := a })),
   ("subscriptionTypeId", fun v x =>
      assign (decInt v x.SubscriptionTypeId)
        (fun a => { x with SubscriptionTypeId := a })),
   ("label", fun v x => assign (decString v x.Label) (fun a => { x with Label := a }))]

/-- Decoding into a `CommunicationCheckbox`. -/
def decCommunicationCheckbox : Dec CommunicationCheckbox :=
  decStruct "CommunicationCheckbox" CommunicationCheckbox.fieldTable

/-- The fields of a `LegalConsentOptions`: JSON names and setters. -/
def LegalConsentOptions.fieldTable : FieldTable (LegalConsentOptions) :=
  [("type", fun v x => assign (decString v x.Type_) (fun a => { x with Type_ := a })),
   ("communicationConsentText", fun v x =>
      assign (decString v x.CommunicationConsentText)
        (fun a => { x with CommunicationConsentText := a })),
   ("communicationsCheckboxes", fun v x =>
      assign (decSlice decCommunicationCheckbox CommunicationCheckbox.zero v x.CommunicationsCheckboxes)
        (fun a => { x with CommunicationsCheckboxes := a })),
   ("consentToProcessText", fun v x =>
      assign (decString v x.ConsentToProcessText)
        (fun a => { x with ConsentToProcessText := a })),
   ("consentToProcessCheckboxLabel", fun v x =>
      assign (decString v x.ConsentToProcessCheckboxLabel)
        (fun a => { x with ConsentToProcessCheckboxLabel := a })),
   ("privacyText", fun v x =>
      assign (decString v x.PrivacyText)
        (fun a => { x with PrivacyText := a })),
   ("consent", fun v x => assign (decString v x.Consent) (fun a => { x with Consent := a })),
   ("consentToProcess", fun v x =>
      assign (decBool v x.ConsentToProcess)
        (fun a => { x with ConsentToProcess := a })),
   ("text", fun v x => assign (decString v x.Text) (fun a => { x with Text := a })),
   ("communications", fun v x =>
      assign (decSlice decString "" v x.Communications)
        (fun a => { x with Communications := a }))]

/-- Decoding into a `LegalConsentOptions`. -/
def decLegalConsentOptions : Dec LegalConsentOptions :=
  decStruct "LegalConsentOptions" LegalConsentOptions.fieldTable

/-- The fields of a `Form`: JSON names and setters. -/
def Form.fieldTable {Any : Type} (decAny : JSON → Any) : FieldTable (Form Any) :=
  [("id", fun v x => assign (decString v x.ID) (fun a => { x with ID := a })),
   ("name", fun v x => assign (decString v x.Name) (fun a => { x with Name := a })),
   ("createdAt", fun v x =>
      assign (decString v x.CreatedAt)
        (fun a => { x with CreatedAt := a })),
   ("updatedAt", fun v x =>
      assign (decString v x.UpdatedAt)
        (fun a => { x with UpdatedAt := a })),
   ("archived", fun v x => assign (decBool v x.Archived) (fun a => { x with Archived := a })),
   ("fieldGroups", fun v x =>
      assign (decSlice (decFormFieldGroup decAny) FormFieldGroup.zero v x.FieldGroups)
        (fun a => { x with FieldGroups := a })),
   ("configuration", fun v x =>
      assign (decFormConfiguration v x.Configuration)
        (fun a => { x with Configuration := a })),
   ("displayOptions", fun v x =>
      assign (decFormDisplayOptions v x.DisplayOptions)
        (fun a => { x with DisplayOptions := a })),
   ("legalConsentOptions", fun v x =>
      assign (decPtr decLegalConsentOptions LegalConsentOptions.zero v x.LegalConsentOptions)
        (fun a => { x with LegalConsentOptions := a })),
   ("formType", fun v x => assign (decString v x.FormType) (fun a => { x with FormType := a })),
   ("action", fun v x => assign (decString v x.Action) (fun a => { x with Action := a })),
   ("method", fun v x => assign (decString v x.Method) (fun a => { x with Method := a })),
   ("redirectUrl", fun v x =>
      assign (decString v x.RedirectURL)
        (fun a => { x with RedirectURL := a })),
   ("properties", fun v x =>
      assign (decMap decAny v x.Properties)
        (fun a => { x with Properties := a }))]

/-- Decoding into a `Form`. -/
def decForm {Any : Type} (decAny : JSON → Any) : Dec (Form Any) :=
  decStruct "Form" (Form.fieldTable decAny)

/-- The fields of the struct `FormResponse.Paging.Next`: JSON names and setters. -/
def PagingNext.fieldTable : FieldTable (PagingNext) :=
  [("after", fun v x => assign (decString v x.After) (fun a => { x with After := a }))]

/-- Decoding into the struct `FormResponse.Paging.Next`. -/
def decPagingNext : Dec PagingNext :=
  decStruct "PagingNext" PagingNext.fieldTable

/-- The fields of the struct `FormResponse.Paging`: JSON names and setters. -/
def Paging.fieldTable : FieldTable (Paging) :=
  [("next", fun v x => assign (decPagingNext v x.Next) (fun a => { x with Next := a }))]

/-- Decoding into the struct `FormResponse.Paging`. -/
def decPaging : Dec Paging :=
  decStruct "Paging" Paging.fieldTable

/-- The fields of a `FormResponse`: JSON names and setters. -/
def FormResponse.fieldTable {Any : Type} (decAny : JSON → Any) : FieldTable (FormResponse Any) :=
  [("results", fun v x =>
      assign (decSlice (decForm decAny) Form.zero v x.Results)
        (fun a => { x with Results := a })),
   ("paging", fun v x => assign (decPaging v x.Paging) (fun a => { x with Paging := a }))]

/-- Decoding into a `FormResponse`. -/
def decFormResponse {Any : Type} (decAny : JSON → Any) : Dec (FormResponse Any) :=
  decStruct "FormResponse" (FormResponse.fieldTable decAny)

/-! ## Statements about encodings -/

/-- A field is omitted when empty in an encoding: no member of that name when the value
is empty, and a member that is not `null` when it is not. -/
def OmitsWhenEmpty (j : JSON) (key : String) (empty : Bool) : Prop :=
  (empty = true → j.member? key = none) ∧
  (empty = false → ∃ v, j.member? key = some v ∧ v.isNull = false)

/-- A field is always written in an encoding: a member of that name, with that value. -/
def AlwaysWrites (j : JSON) (key : String) (v : JSON) : Prop :=
  j.member? key = some v

/-! ## Strings and URLs (the parts of `fmt` and `net/url` the code uses) -/

/-- The call `fmt.Sprintf("%s/%s", a, b)`. -/
def sprintf2 (a b : String) : String := a ++ "/" ++ b

/-- The call `fmt.Sprintf("%s/%s/%s", a, b, c)`. -/
def sprintf3 (a b c : String) : String := a ++ "/" ++ b ++ "/" ++ c

/-- A `url.URL` value, with the components of an absolute `scheme://host/path` URL. -/
structure URL where
  Scheme : String
  Host : String
  Path : String
  deriving DecidableEq

/-- The method `(*url.URL).String` on such a URL. -/
def URL.String (u : URL) : String := u.Scheme ++ "://" ++ u.Host ++ u.Path

/-- Characters of a URL scheme after its first letter. -/
def isSchemeChar (c : Char) : Bool := c.isAlphanum || c == '+' || c == '-' || c == '.'

/-- Characters that `net/url` accepts unescaped in a host name and in a path segment. -/
def isUnreservedChar (c : Char) : Bool :=
  c.isAlphanum || c == '-' || c == '.' || c == '_' || c == '~'

/-- The function `url.Parse`, on the fragment `scheme://host[/path]` written with
unreserved characters only (no user info, port, query, fragment or escapes). On this
fragment `net/url` returns the three components unchanged, the scheme in lower case.
Raw URLs outside the fragment are reported as `Except.error`; the code only parses one
literal, which lies inside it. -/
def urlParse (rawURL : String) : Except String URL :=
  match rawURL.data.span isSchemeChar with
  | (scheme, ':' :: '/' :: '/' :: rest) =>
    match rest.span (fun c => c != '/') with
    | (host, path) =>
      if (scheme.head?.map Char.isAlpha == some true) && !host.isEmpty
          && host.all isUnreservedChar && path.all (fun c => c == '/' || isUnreservedChar c) then
        .ok { Scheme := String.mk (scheme.map Char.toLower), Host := String.mk host,
              Path := String.mk path }
      else .error "outside the modelled fragment"
  | _ => .error "outside the modelled fragment"

/-! ## Client, heap and transport -/

/-- The type `Client`. Its declaration is outside the two files; the code here reads
`apiVersion` and writes `baseURL` (a `*url.URL`), every other field is kept in `rest`. -/
structure Client (Cfg : Type) where
  baseURL : Option URL
  apiVersion : String
  rest : Cfg
  deriving DecidableEq

/-- A Go pointer: `none` is `nil`, `some a` the address of a heap cell. -/
abbrev Ptr : Type := Option Nat

/-- FormServiceOp handles communication with the HubSpot Forms API. -/
structure FormServiceOp where
  client : Ptr
  formPath : String
  deriving DecidableEq

/-- The objects the code shares through pointers. -/
inductive Obj (Cfg : Type) where
  | client (c : Client Cfg)
  | formService (s : FormServiceOp)
  deriving DecidableEq

/-- The heap: cell `a` is the `a`-th entry. -/
structure Heap (Cfg : Type) where
  cells : List (Obj Cfg)

/-- Dereference of a `*Client`; `none` when the pointer is nil (a panic in Go). -/
def Heap.client? {Cfg : Type} (h : Heap Cfg) : Ptr → Option (Client Cfg)
  | none => none
  | some a => match h.cells[a]? with
    | some (.client c) => some c
    | _ => none

/-- Dereference of a `*FormServiceOp`; `none` when the pointer is nil. -/
def Heap.formService? {Cfg : Type} (h : Heap Cfg) : Ptr → Option FormServiceOp
  | none => none
  | some a => match h.cells[a]? with
    | some (.formService s) => some s
    | _ => none

/-- Allocation of a fresh cell (a composite literal `&T{...}`, or a local whose address
is taken); the existing cells stay as they are. -/
def Heap.alloc {Cfg : Type} (h : Heap Cfg) (o : Obj Cfg) : Ptr × Heap Cfg :=
  (some h.cells.length, { cells := h.cells ++ [o] })

/-- A run-time panic of the Go program. -/
inductive Panic where
  | nilDereference
  deriving DecidableEq

/-- The `data interface{}` argument of `Post` and `Patch`, as the service passes it:
a `*Form` or a `*FormSubmission`, either of which may be nil. -/
inductive Body (Any : Type) where
  | form (p : Option (Form Any))
  | submission (p : Option (FormSubmission Any))
  deriving DecidableEq

/-- The `resource interface{}` argument (the output target), as the service passes it:
`nil`, a pointer to a fresh `new(Form)`, or a pointer to a fresh `new(FormResponse)`. -/
inductive Target where
  | nil
  | form
  | formResponse
  deriving DecidableEq

/-- What a target holds once the transport has returned. -/
@[reducible] def Target.Val (Any : Type) : Target → Type
  | .nil => Unit
  | .form => Form Any
  | .formResponse => FormResponse Any

/-- One call of a transport method, with the arguments of that method. -/
inductive Call (Any Q : Type) where
  | Get (path : String) (resource : Target) (option : Option Q)
  | Post (path : String) (data : Body Any) (resource : Target)
  | Patch (path : String) (data : Body Any) (resource : Target)
  | Delete (path : String) (resource : Target)
  deriving DecidableEq

/-- The output target of a call. -/
@[reducible] def Call.resource {Any Q : Type} : Call Any Q → Target
  | .Get _ r _ => r
  | .Post _ _ r => r
  | .Patch _ _ r => r
  | .Delete _ r => r

/-- The result of a transport method: the `error` it returns (`none` is nil) and the
contents of the output target when it returns. -/
structure Reply (Err : Type) (α : Type) where
  err : Option Err
  out : α

/-- The transport methods of `Client`, which are outside the two files: given the
receiver, the call, the heap and the state `W` of the outside world, they produce a
reply and leave a heap and a world. -/
structure Transport (Any Cfg Err Q W : Type) where
  send : (recv : Ptr) → (c : Call Any Q) → Heap Cfg → W →
    Reply Err (Target.Val Any c.resource) × Heap Cfg × W

/-- A transport call as it was issued: the receiver, what the receiver pointed to at
that moment, and the arguments. -/
structure Issued (Any Cfg Q : Type) where
  recv : Ptr
  client : Option (Client Cfg)
  call : Call Any Q

/-- The state the program runs in: heap, outside world, and the transport calls issued
so far, oldest first. -/
structure St (Any Cfg Q W : Type) where
  heap : Heap Cfg
  world : W
  log : List (Issued Any Cfg Q)

section Service

variable {Any Cfg Err Q W : Type}

/-- A method call on the transport: runs the transport and records the call. -/
def invoke (t : Transport Any Cfg Err Q W) (recv : Ptr) (c : Call Any Q)
    (st : St Any Cfg Q W) : Reply Err (Target.Val Any c.resource) × St Any Cfg Q W :=
  let r := t.send recv c st.heap st.world
  (r.1, { heap := r.2.1, world := r.2.2,
          log := st.log ++ [{ recv := recv, client := st.heap.client? recv, call := c }] })

/-! ## The Forms service (`marketing_form.go`, lines 8-10 and 183-257) -/

/-- The constant `marketingBasePath` of `marketing.go`. -/
def marketingBasePath : String := "marketing"

/-- The constant `formBasePath`. -/
def formBasePath : String := "forms"

/-- NewFormService creates a new FormService. Reading `client.apiVersion` panics on a
nil client; the service is a fresh cell. -/
def NewFormService (client : Ptr) (h : Heap Cfg) : Except Panic (Ptr × Heap Cfg) :=
  match h.client? client with
  | none => .error .nilDereference
  | some c =>
    .ok (h.alloc (.formService
      { client := client,
        formPath := sprintf3 marketingBasePath c.apiVersion formBasePath }))

/-- Create creates a new form. -/
def FormServiceOp.Create (t : Transport Any Cfg Err Q W) (s : Ptr) (form : Option (Form Any))
    (st : St Any Cfg Q W) : Except Panic ((Option (Form Any) × Option Err) × St Any Cfg Q W) :=
  match st.heap.formService? s with
  | none => .error .nilDereference
  | some sv =>
    let r := invoke t sv.client (.Post sv.formPath (.form form) .form) st
    let createdForm : Form Any := r.1.out
    match r.1.err with
    | some err => .ok ((none, some err), r.2)
    | none => .ok ((some createdForm, none), r.2)

/-- Get retrieves a form by ID. -/
def FormServiceOp.Get (t : Transport Any Cfg Err Q W) (s : Ptr) (formID : String)
    (st : St Any Cfg Q W) : Except Panic ((Option (Form Any) × Option Err) × St Any Cfg Q W) :=
  match st.heap.formService? s with
  | none => .error .nilDereference
  | some sv =>
    let path := sprintf2 sv.formPath formID
    let r := invoke t sv.client (.Get path .form none) st
    let form : Form Any := r.1.out
    match r.1.err with
    | some err => .ok ((none, some err), r.2)
    | none => .ok ((some form, none), r.2)

/-- List retrieves a list of forms. -/
def FormServiceOp.List (t : Transport Any Cfg Err Q W) (s : Ptr) (options : Option Q)
    (st : St Any Cfg Q W) :
    Except Panic ((Option (FormResponse Any) × Option Err) × St Any Cfg Q W) :=
  match st.heap.formService? s with
  | none => .error .nilDereference
  | some sv =>
    let r := invoke t sv.client (.Get sv.formPath .formResponse options) st
    let response : FormResponse Any := r.1.out
    match r.1.err with
    | some err => .ok ((none, some err), r.2)
    | none => .ok ((some response, none), r.2)

/-- Update updates an existing form. -/
def FormServiceOp.Update (t : Transport Any Cfg Err Q W) (s : Ptr) (formID : String)
    (form : Option (Form Any)) (st : St Any Cfg Q W) :
    Except Panic ((Option (Form Any) × Option Err) × St Any Cfg Q W) :=
  match st.heap.formService? s with
  | none => .error .nilDereference
  | some sv =>
    let path := sprintf2 sv.formPath formID
    let r := invoke t sv.client (.Patch path (.form form) .form) st
    let updatedForm : Form Any := r.1.out
    match r.1.err with
    | some err => .ok ((none, some err), r.2)
    | none => .ok ((some updatedForm, none), r.2)

/-- Delete deletes a form. -/
def FormServiceOp.Delete (t : Transport Any Cfg Err Q W) (s : Ptr) (formID : String)
    (st : St Any Cfg Q W) : Except Panic (Option Err × St Any Cfg Q W) :=
  match st.heap.formService? s with
  | none => .error .nilDereference
  | some sv =>
    let path := sprintf2 sv.formPath formID
    let r := invoke t sv.client (.Delete path .nil) st
    .ok (r.1.err, r.2)

/-- The path `fmt.Sprintf("/submissions/v3/integration/secure/submit/%s/%s", ...)` of
Submit. -/
def submitPath (portalID formID : String) : String :=
  "/submissions/v3/integration/secure/submit/" ++ portalID ++ "/" ++ formID

/-- Submit submits a form to HubSpot. The local `formsClient` is a shallow copy of
`*s.client` in a cell of its own; only that copy gets the forms base URL. -/
def FormServiceOp.Submit (t : Transport Any Cfg Err Q W) (s : Ptr) (portalID formID : String)
    (submission : Option (FormSubmission Any)) (st : St Any Cfg Q W) :
    Except Panic (Option Err × St Any Cfg Q W) :=
  match st.heap.formService? s with
  | none => .error .nilDereference
  | some sv =>
    match st.heap.client? sv.client with
    | none => .error .nilDereference
    | some c =>
      let formsClient : Client Cfg := c
      let formsBaseURL := (urlParse "https://api.hsforms.com").toOption
      let formsClient := { formsClient with baseURL := formsBaseURL }
      let path := submitPath portalID formID
      let a := st.heap.alloc (.client formsClient)
      let r := invoke t a.1 (.Post path (.submission submission) .nil) { st with heap := a.2 }
      .ok (r.1.err, r.2)

end Service


/-! ## The service registry (`marketing.go`) -/

/-- The struct `TransactionalServiceOp`, with the two fields `newMarketing` sets. -/
structure TransactionalServiceOp where
  client : Ptr
  transactionalPath : String
  deriving DecidableEq

/-- The struct `Marketing`. The `Email` service is built outside the two files and is
kept as a value of type `E`; `Form` is the pointer `NewFormService` returns. -/
structure Marketing (E : Type) where
  Email : E
  Transactional : TransactionalServiceOp
  Form : Ptr

/-- The function `newMarketing`. The constructor `NewMarketingEmail` and the constant
`transactionalBasePath` are declared outside the two files and are parameters. -/
def newMarketing {Cfg E : Type} (NewMarketingEmail : Ptr → E) (transactionalBasePath : String)
    (c : Ptr) (h : Heap Cfg) : Except Panic (Marketing E × Heap Cfg) :=
  let email := NewMarketingEmail c
  match h.client? c with
  | none => .error .nilDereference
  | some cl =>
    let transactional : TransactionalServiceOp :=
      { client := c,
        transactionalPath := sprintf3 marketingBasePath cl.apiVersion transactionalBasePath }
    match NewFormService c h with
    | .error e => .error e
    | .ok (form, h1) =>
      .ok ({ Email := email, Transactional := transactional, Form := form }, h1)

/-! ## A transport for examples -/

/-- The contents of a fresh output target. -/
def Target.zero (Any : Type) : (r : Target) → Target.Val Any r
  | .nil => ()
  | .form => Form.zero
  | .formResponse => FormResponse.zero

/-- A transport that answers every call with the given error, decodes nothing and
touches neither heap nor world. -/
def constTransport (Any Cfg Err Q W : Type) (e : Option Err) : Transport Any Cfg Err Q W :=
  { send := fun _ c h w => ({ err := e, out := Target.zero Any c.resource }, h, w) }

/-- A transport that counts its round trips in the world, answers every call with the
given error, decodes nothing and touches no cell. -/
def countingTransport (Any Cfg Err Q : Type) (e : Option Err) : Transport Any Cfg Err Q Nat :=
  { send := fun _ c h w => ({ err := e, out := Target.zero Any c.resource }, h, w + 1) }

/-- A transport leaves the cells of a service and of its client as it found them. -/
def Transport.Keeps {Any Cfg Err Q W : Type} (t : Transport Any Cfg Err Q W)
    (s : Ptr) (sv : FormServiceOp) (c : Client Cfg) : Prop :=
  ∀ (recv : Ptr) (call : Call Any Q) (h : Heap Cfg) (w : W),
    h.formService? s = some sv → h.client? sv.client = some c →
      (t.send recv call h w).2.1.formService? s = some sv ∧
      (t.send recv call h w).2.1.client? sv.client = some c

/-- A client configured for `https://api.hubapi.com` with API version `v3`. -/
def exampleClient : Client Unit :=
  { baseURL := some { Scheme := "https", Host := "api.hubapi.com", Path := "" },
    apiVersion := "v3", rest := () }

/-- A heap that holds `exampleClient` at address 0 and nothing else. -/
def clientHeap : Heap Unit := { cells := [.client exampleClient] }

/-- The heap after `NewFormService` on the client of `clientHeap`: the client at address
0 and its Forms service at address 1. -/
def exampleHeap : Heap Unit :=
  match NewFormService (some 0) clientHeap with
  | .ok r => r.2
  | .error _ => clientHeap

/-- A state over `exampleHeap` whose world counts the round trips made, none so far. -/
def countingSt : St Unit Unit Unit Nat := { heap := exampleHeap, world := 0, log := [] }

/-- A state over `exampleHeap` in which no transport call has been made. -/
def exampleSt : St Unit Unit Unit Unit := { heap := exampleHeap, world := (), log := [] }


/-! ## What a round trip through JSON preserves -/

/-- The slice or map that comes back for an `omitempty` field: an empty one was not
written, so it comes back nil. -/
def nilIfEmpty {α : Type} : Option (List α) → Option (List α)
  | some [] => none
  | o => o

/-- A `FormFieldValidation` after encoding and decoding. -/
def normFormFieldValidation (x : FormFieldValidation) : FormFieldValidation :=
  { x with BlockedEmailDomains := nilIfEmpty x.BlockedEmailDomains }

/-- A `FormField` after encoding and decoding. -/
def normFormField {Any : Type} (x : FormField Any) : FormField Any :=
  { x with Validation := x.Validation.map normFormFieldValidation,
           Options := nilIfEmpty x.Options,
           Properties := nilIfEmpty x.Properties,
           DependentFields := nilIfEmpty x.DependentFields }

/-- A `FormFieldGroup` after encoding and decoding. -/
def normFormFieldGroup {Any : Type} (x : FormFieldGroup Any) : FormFieldGroup Any :=
  { x with Fields := x.Fields.map (List.map normFormField) }

/-- A `LegalConsentOptions` after encoding and decoding. -/
def normLegalConsentOptions (x : LegalConsentOptions) : LegalConsentOptions :=
  { x with Communications := nilIfEmpty x.Communications }

/-- A `Form` after encoding and decoding. -/
def normForm {Any : Type} (x : Form Any) : Form Any :=
  { x with FieldGroups := x.FieldGroups.map (List.map normFormFieldGroup),
           LegalConsentOptions := x.LegalConsentOptions.map normLegalConsentOptions,
           Properties := nilIfEmpty x.Properties }

/-- The values of a Go `int` or `int64`. -/
def IntInRange (n : Int) : Prop := -(2 ^ 63) ≤ n ∧ n < 2 ^ 63

/-- With a total `encAny`: the entries of the map are in increasing key order and
decoding what is written for a value gives the value back. -/
def GoMap.ReadsBack {Any : Type} (encAny : Any → JSON) (decAny : JSON → Any)
    (m : GoMap Any) : Prop :=
  ∀ l, m = some l →
    (l.map Prod.fst).Pairwise (fun a b => a < b) ∧ ∀ kv ∈ l, decAny (encAny kv.2) = kv.2

/-- Marshal supports every value held in the map. -/
def GoMap.Supported {Any : Type} (marshalAny : Any → Except MarshalError JSON)
    (m : GoMap Any) : Prop :=
  ∀ l, m = some l → ∀ kv ∈ l, ∃ j, marshalAny kv.2 = .ok j

/-- A map that a round trip gives back: its entries are listed in increasing key order
(as for every Go map in this model), Marshal supports every value held in it, and
decoding what Marshal writes for a value into an `interface{}` gives that value. -/
def GoMap.Valid {Any : Type} (marshalAny : Any → Except MarshalError JSON)
    (decAny : JSON → Any) (m : GoMap Any) : Prop :=
  ∀ l, m = some l →
    (l.map Prod.fst).Pairwise (fun a b => a < b) ∧
    ∀ kv ∈ l, ∃ j, marshalAny kv.2 = .ok j ∧ decAny j = kv.2

/-- Validity of a `LegalConsentOptions`: the `int` fields are in range. -/
def LegalConsentOptions.Valid (x : LegalConsentOptions) : Prop :=
  ∀ cs, x.CommunicationsCheckboxes = some cs → ∀ c ∈ cs, IntInRange c.SubscriptionTypeId

/-- Validity of a `FormField`: its `Properties` is a valid map. -/
def FormField.Valid {Any : Type} (marshalAny : Any → Except MarshalError JSON)
    (decAny : JSON → Any) (x : FormField Any) : Prop :=
  GoMap.Valid marshalAny decAny x.Properties

/-- Validity of a `FormFieldGroup`: its fields are valid. -/
def FormFieldGroup.Valid {Any : Type} (marshalAny : Any → Except MarshalError JSON)
    (decAny : JSON → Any) (x : FormFieldGroup Any) : Prop :=
  ∀ fs, x.Fields = some fs → ∀ fld ∈ fs, FormField.Valid marshalAny decAny fld

/-- Validity of a `Form` for the round trip: its groups are valid, the `int` fields of
its legal consent options are in range, and Marshal supports every value held in its
own `Properties`. -/
def Form.Valid {Any : Type} (marshalAny : Any → Except MarshalError JSON)
    (decAny : JSON → Any) (x : Form Any) : Prop :=
  (∀ gs, x.FieldGroups = some gs → ∀ g ∈ gs, FormFieldGroup.Valid marshalAny decAny g) ∧
  (∀ l, x.LegalConsentOptions = some l → l.Valid) ∧
  GoMap.Supported marshalAny x.Properties

/-- No `omitempty` slice or map of a `FormField` is empty without being nil. -/
def FormField.NoEmptyNonNil {Any : Type} (x : FormField Any) : Prop :=
  x.Options ≠ some [] ∧ x.Properties ≠ some [] ∧ x.DependentFields ≠ some [] ∧
  ∀ v, x.Validation = some v → v.BlockedEmailDomains ≠ some []

/-- No `omitempty` slice or map inside the groups is empty without being nil. -/
def NoEmptyNonNil {Any : Type} (groups : Slice (FormFieldGroup Any)) : Prop :=
  ∀ gs, groups = some gs → ∀ g ∈ gs, ∀ fs, g.Fields = some fs →
    ∀ fld ∈ fs, FormField.NoEmptyNonNil fld

/-- The JSON round trip of a `Form`: `json.Marshal`, whose error ends it, then
`json.Unmarshal` of what was written into a `new(Form)`, which gives the decoded form
and the error of Unmarshal, if any. -/
def roundTripForm {Any : Type} (marshalAny : Any → Except MarshalError JSON)
    (decAny : JSON → Any) (f : Form Any) :
    Except MarshalError (Form Any × Option UnmarshalTypeError) :=
  match marshalForm marshalAny f with
  | .error e => .error e
  | .ok j => .ok (decForm decAny j Form.zero)

/-- An `interface{}` universe with two values for examples: `true` is a value Marshal
writes as `true`, `false` stands for a value Marshal does not support (a NaN). -/
def marshalBool (b : Bool) : Except MarshalError JSON :=
  if b then .ok (.bool true) else .error .unsupported

/-- The form `Contact Us` without groups, with the unsupported value in `Properties`. -/
def exampleFormNaN : Form Bool :=
  { ID := "", Name := "Contact Us", CreatedAt := "", UpdatedAt := "", Archived := false,
    FieldGroups := none, Configuration := FormConfiguration.zero,
    DisplayOptions := FormDisplayOptions.zero, LegalConsentOptions := none, FormType := "",
    Action := "", Method := "", RedirectURL := "", Properties := some [("ratio", false)] }

/-- A field `email` whose `Options` is the empty, non-nil slice. -/
def exampleField : FormField Unit :=
  { ObjectTypeId := "", Name := "email", Label := "", Required := true, Hidden := false,
    FieldType := "email", Validation := none, Placeholder := "", HelpText := "",
    Options := some [], Properties := none, DependentFields := none }

/-- A form `Contact Us` with one group of one field, `exampleField`. -/
def exampleForm : Form Unit :=
  { ID := "", Name := "Contact Us", CreatedAt := "", UpdatedAt := "", Archived := false,
    FieldGroups := some [{ GroupType := "default_group", RichTextType := "text",
                           Fields := some [exampleField] }],
    Configuration := FormConfiguration.zero, DisplayOptions := FormDisplayOptions.zero,
    LegalConsentOptions := none, FormType := "", Action := "", Method := "",
    RedirectURL := "", Properties := none }

/-- The same field with a nil `Options`. -/
def exampleFieldNil : FormField Unit :=
  { ObjectTypeId := "", Name := "email", Label := "", Required := true, Hidden := false,
    FieldType := "email", Validation := none, Placeholder := "", HelpText := "",
    Options := none, Properties := none, DependentFields := none }

/-- The same form with `exampleFieldNil` as its field. -/
def exampleFormNil : Form Unit :=
  { ID := "", Name := "Contact Us", CreatedAt := "", UpdatedAt := "", Archived := false,
    FieldGroups := some [{ GroupType := "default_group", RichTextType := "text",
                           Fields := some [exampleFieldNil] }],
    Configuration := FormConfiguration.zero, DisplayOptions := FormDisplayOptions.zero,
    LegalConsentOptions := none, FormType := "", Action := "", Method := "",
    RedirectURL := "", Properties := none }

/-! ## The transport as the specification describes it -/

/-- An HTTP response: status code and decoded JSON text of the body. -/
structure HTTPResponse where
  status : Nat
  body : JSON

/-- The errors of the transport of the specification. -/
inductive TransportError where
  | status (code : Nat) (body : JSON)
  | decode (e : UnmarshalTypeError)

/-- Decoding of a response body into a fresh output target. -/
def decodeTarget {Any : Type} (decAny : JSON → Any) (body : JSON) :
    (r : Target) → Target.Val Any r × Option UnmarshalTypeError
  | .nil => ((), none)
  | .form => decForm decAny body Form.zero
  | .formResponse => decFormResponse decAny body FormResponse.zero

/-- Modelled from the spec: the transport methods `Client.Get`, `Post`, `Patch` and
`Delete`, which are not in the two files. By section 6 each performs one HTTP round
trip, JSON-decodes the response into the output target and maps non-2xx statuses to
an error. The remote server is the parameter `server`. -/
def specTransport {Any Cfg Q W : Type} (decAny : JSON → Any)
    (server : Call Any Q → W → HTTPResponse × W) : Transport Any Cfg TransportError Q W :=
  { send := fun _ c h w =>
      let resp := (server c w).1
      if 200 ≤ resp.status ∧ resp.status < 300 then
        ({ err := (decodeTarget decAny resp.body c.resource).2.map TransportError.decode,
           out := (decodeTarget decAny resp.body c.resource).1 }, h, (server c w).2)
      else
        ({ err := some (.status resp.status resp.body),
           out := Target.zero Any c.resource }, h, (server c w).2) }

/-- A server that answers every request with status 200 and the given body. -/
def mockServer {Any Q W : Type} (body : JSON) : Call Any Q → W → HTTPResponse × W :=
  fun _ w => ({ status := 200, body := body }, w)

/-- A list response body without a `paging` member; `ms1` and `ms2` are its members. -/
def bodyNoPaging (ms1 ms2 : List (String × JSON)) : JSON := .obj (ms1 ++ ms2)

/-- The same body with a `paging` member that has no `next` member. -/
def bodyNoNext (ms1 ms2 ps1 ps2 : List (String × JSON)) : JSON :=
  .obj (ms1 ++ ("paging", .obj (ps1 ++ ps2)) :: ms2)

/-- The same body with a `next` member that has no `after` member. -/
def bodyNoAfter (ms1 ms2 ps1 ps2 ns1 ns2 : List (String × JSON)) : JSON :=
  .obj (ms1 ++ ("paging", .obj (ps1 ++ ("next", .obj (ns1 ++ ns2)) :: ps2)) :: ms2)

/-- The same body with the empty cursor written out: `"after": ""`. -/
def bodyEmptyAfter (ms1 ms2 ps1 ps2 ns1 ns2 : List (String × JSON)) : JSON :=
  .obj (ms1 ++ ("paging",
    .obj (ps1 ++ ("next", .obj (ns1 ++ ("after", .str "") :: ns2)) :: ps2)) :: ms2)

/-- No member of the list has the given name, in any letter case. -/
def NoMemberNamed (name : String) (ms : List (String × JSON)) : Prop :=
  ∀ kv ∈ ms, foldName kv.1 ≠ foldName name

/-! ## Theorems -/

section HeapLemmas

variable {Cfg : Type}

theorem urlParse_forms :
    urlParse "https://api.hsforms.com"
      = .ok { Scheme := "https", Host := "api.hsforms.com", Path := "" } := by
  rfl

theorem Heap.client?_alloc_new (h : Heap Cfg) (c : Client Cfg) :
    (h.alloc (.client c)).2.client? (h.alloc (.client c)).1 = some c := by
  simp [Heap.alloc, Heap.client?]

theorem Heap.formService?_alloc_new (h : Heap Cfg) (s : FormServiceOp) :
    (h.alloc (.formService s)).2.formService? (h.alloc (.formService s)).1 = some s := by
  simp [Heap.alloc, Heap.formService?]

theorem Heap.client?_alloc_old (h : Heap Cfg) (o : Obj Cfg) (p : Ptr) (c : Client Cfg)
    (hp : h.client? p = some c) : (h.alloc o).2.client? p = some c := by
  cases p with
  | none => simp [Heap.client?] at hp
  | some a =>
    simp only [Heap.client?, Heap.alloc] at hp ⊢
    by_cases ha : a < h.cells.length
    · rw [List.getElem?_append_left ha]; exact hp
    · rw [List.getElem?_eq_none (by omega)] at hp; simp at hp

theorem Heap.formService?_alloc_old (h : Heap Cfg) (o : Obj Cfg) (p : Ptr) (s : FormServiceOp)
    (hp : h.formService? p = some s) : (h.alloc o).2.formService? p = some s := by
  cases p with
  | none => simp [Heap.formService?] at hp
  | some a =>
    simp only [Heap.formService?, Heap.alloc] at hp ⊢
    by_cases ha : a < h.cells.length
    · rw [List.getElem?_append_left ha]; exact hp
    · rw [List.getElem?_eq_none (by omega)] at hp; simp at hp

theorem Heap.alloc_fresh_client (h : Heap Cfg) (o : Obj Cfg) (p : Ptr) (c : Client Cfg)
    (hp : h.client? p = some c) : (h.alloc o).1 ≠ p := by
  intro e
  subst e
  simp [Heap.alloc, Heap.client?] at hp

end HeapLemmas


section ServiceTheorems

variable {Any Cfg Err Q W : Type}

/-- The forms host that Submit parses. -/
theorem formsBaseURL_string :
    ((urlParse "https://api.hsforms.com").toOption.map URL.String)
      = some "https://api.hsforms.com" := by
  rfl

/-- C1. Whatever base URL the configured client has, Submit makes one call of the
transport and returns its error: a Post whose receiver is a new cell holding a client
with base URL `https://api.hsforms.com`, whose path is
`/submissions/v3/integration/secure/submit/` followed by `portalID`, `/` and `formID`,
whose body is the given submission and whose output target is nil. The heap and the
world after Submit are the ones that call leaves. -/
theorem C1_submit_targets_forms_host (t : Transport Any Cfg Err Q W) (s : Ptr)
    (sv : FormServiceOp) (c : Client Cfg) (portalID formID : String)
    (submission : Option (FormSubmission Any)) (st : St Any Cfg Q W)
    (hs : st.heap.formService? s = some sv) (hc : st.heap.client? sv.client = some c) :
    ∃ (recv : Ptr) (d : Client Cfg) (h1 : Heap Cfg) (r : Reply Err Unit × Heap Cfg × W),
      (recv, h1) = st.heap.alloc (.client d) ∧
      h1.client? recv = some d ∧
      d.baseURL = some { Scheme := "https", Host := "api.hsforms.com", Path := "" } ∧
      d.baseURL.map URL.String = some "https://api.hsforms.com" ∧
      r = t.send recv
            (.Post ("/submissions/v3/integration/secure/submit/" ++ portalID ++ "/" ++ formID)
              (.submission submission) .nil) h1 st.world ∧
      FormServiceOp.Submit t s portalID formID submission st
        = .ok (r.1.err,
            { heap := r.2.1, world := r.2.2,
              log := st.log ++
                [{ recv := recv, client := some d,
                   call := .Post
                     ("/submissions/v3/integration/secure/submit/" ++ portalID ++ "/" ++ formID)
                     (.submission submission) .nil }] }) := by
  refine ⟨(st.heap.alloc (.client
      { c with baseURL := (urlParse "https://api.hsforms.com").toOption })).1,
    { c with baseURL := (urlParse "https://api.hsforms.com").toOption },
    (st.heap.alloc (.client
      { c with baseURL := (urlParse "https://api.hsforms.com").toOption })).2,
    _, rfl, Heap.client?_alloc_new _ _, rfl, rfl, rfl, ?_⟩
  simp only [FormServiceOp.Submit, hs, hc, invoke, Heap.client?_alloc_new, submitPath]

/-- C1 at `Submit("12345", "form-1", nil)` on a client configured for
`https://api.hubapi.com`, with a transport that counts its round trips: one round trip,
to the forms host. -/
theorem C1_submit_targets_forms_host_witness :
    countingSt.heap.formService? (some 1)
        = some { client := some 0, formPath := "marketing/v3/forms" } ∧
    (countingSt.heap.client? (some 0)).map (fun c => c.baseURL.map URL.String)
        = some (some "https://api.hubapi.com") ∧
    ∃ (recv : Ptr) (d : Client Unit) (h1 : Heap Unit) (r : Reply Unit Unit × Heap Unit × Nat),
      (recv, h1) = countingSt.heap.alloc (.client d) ∧
      h1.client? recv = some d ∧
      d.baseURL = some { Scheme := "https", Host := "api.hsforms.com", Path := "" } ∧
      d.baseURL.map URL.String = some "https://api.hsforms.com" ∧
      r = (countingTransport Unit Unit Unit Unit none).send recv
            (.Post ("/submissions/v3/integration/secure/submit/" ++ "12345" ++ "/" ++ "form-1")
              (.submission none) .nil) h1 countingSt.world ∧
      FormServiceOp.Submit (countingTransport Unit Unit Unit Unit none) (some 1)
          "12345" "form-1" none countingSt
        = .ok (r.1.err,
            { heap := r.2.1, world := r.2.2,
              log := countingSt.log ++
                [{ recv := recv, client := some d,
                   call := .Post
                     ("/submissions/v3/integration/secure/submit/" ++ "12345" ++ "/" ++ "form-1")
                     (.submission none) .nil }] }) :=
  ⟨rfl, rfl,
   C1_submit_targets_forms_host (countingTransport Unit Unit Unit Unit none) (some 1)
     { client := some 0, formPath := "marketing/v3/forms" } exampleClient
     "12345" "form-1" none countingSt rfl rfl⟩

/-- C2. Submit writes to no existing cell. The heap it hands to the transport still
holds the service (client pointer and formPath) and the shared client as they were;
the receiver of the request is a new cell, different from the shared client, that
agrees with the shared client in every field other than baseURL; Submit does nothing
after the transport returns, so with a transport that leaves the two cells alone they
are unchanged after the call. -/
theorem C2_submit_leaves_shared_client (t : Transport Any Cfg Err Q W) (s : Ptr)
    (sv : FormServiceOp) (c : Client Cfg) (portalID formID : String)
    (submission : Option (FormSubmission Any)) (st : St Any Cfg Q W)
    (hs : st.heap.formService? s = some sv) (hc : st.heap.client? sv.client = some c) :
    ∃ err st1 recv d h1,
      FormServiceOp.Submit t s portalID formID submission st = .ok (err, st1) ∧
      st1.log = st.log ++
        [{ recv := recv, client := some d,
           call := .Post (submitPath portalID formID) (.submission submission) .nil }] ∧
      recv ≠ sv.client ∧
      d.apiVersion = c.apiVersion ∧ d.rest = c.rest ∧
      h1.formService? s = some sv ∧ h1.client? sv.client = some c ∧ h1.client? recv = some d ∧
      st1.heap = (t.send recv (.Post (submitPath portalID formID) (.submission submission) .nil)
                    h1 st.world).2.1 ∧
      (t.Keeps s sv c → st1.heap.formService? s = some sv ∧ st1.heap.client? sv.client = some c) := by
  have hs1 := Heap.formService?_alloc_old st.heap
    (.client { c with baseURL := (urlParse "https://api.hsforms.com").toOption }) s sv hs
  have hc1 := Heap.client?_alloc_old st.heap
    (.client { c with baseURL := (urlParse "https://api.hsforms.com").toOption }) sv.client c hc
  simp only [FormServiceOp.Submit, hs, hc, invoke, Heap.client?_alloc_new]
  exact ⟨_, _, _, _, _, rfl, rfl, Heap.alloc_fresh_client _ _ _ _ hc, rfl, rfl, hs1, hc1,
    Heap.client?_alloc_new _ _, rfl, fun hk => hk _ _ _ _ hs1 hc1⟩

/-- C2 on the example heap, with a transport that touches no cell. -/
theorem C2_submit_leaves_shared_client_witness :
    ∃ err st1 recv d h1,
      FormServiceOp.Submit (constTransport Unit Unit Unit Unit Unit none) (some 1)
          "12345" "form-1" none exampleSt = .ok (err, st1) ∧
      st1.log = exampleSt.log ++
        [{ recv := recv, client := some d,
           call := .Post (submitPath "12345" "form-1") (.submission none) .nil }] ∧
      recv ≠ some 0 ∧
      d.apiVersion = "v3" ∧ d.rest = () ∧
      h1.formService? (some 1) = some { client := some 0, formPath := "marketing/v3/forms" } ∧
      h1.client? (some 0) = some exampleClient ∧
      h1.client? recv = some d ∧
      st1.heap = ((constTransport Unit Unit Unit Unit Unit none).send recv
                    (.Post (submitPath "12345" "form-1") (.submission none) .nil)
                    h1 exampleSt.world).2.1 ∧
      ((constTransport Unit Unit Unit Unit Unit none).Keeps (some 1)
          { client := some 0, formPath := "marketing/v3/forms" } exampleClient →
        st1.heap.formService? (some 1)
          = some { client := some 0, formPath := "marketing/v3/forms" } ∧
        st1.heap.client? (some 0) = some exampleClient) :=
  C2_submit_leaves_shared_client (constTransport Unit Unit Unit Unit Unit none) (some 1)
    { client := some 0, formPath := "marketing/v3/forms" } exampleClient
    "12345" "form-1" none exampleSt rfl rfl

theorem Create_run (t : Transport Any Cfg Err Q W) (s : Ptr) (sv : FormServiceOp)
    (form : Option (Form Any)) (st : St Any Cfg Q W) (hs : st.heap.formService? s = some sv) :
    ∃ r : Reply Err (Form Any) × Heap Cfg × W,
      r = t.send sv.client (.Post sv.formPath (.form form) .form) st.heap st.world ∧
      FormServiceOp.Create t s form st
        = .ok ((match r.1.err with
                | some e => (none, some e)
                | none => (some r.1.out, none)),
            { heap := r.2.1, world := r.2.2,
              log := st.log ++
                [{ recv := sv.client, client := st.heap.client? sv.client,
                   call := .Post sv.formPath (.form form) .form }] }) := by
  refine ⟨_, rfl, ?_⟩
  simp only [FormServiceOp.Create, hs, invoke]
  split <;> rename_i he <;> simp only [he]

theorem Get_run (t : Transport Any Cfg Err Q W) (s : Ptr) (sv : FormServiceOp)
    (formID : String) (st : St Any Cfg Q W) (hs : st.heap.formService? s = some sv) :
    ∃ r : Reply Err (Form Any) × Heap Cfg × W,
      r = t.send sv.client (.Get (sv.formPath ++ "/" ++ formID) .form none)
            st.heap st.world ∧
      FormServiceOp.Get t s formID st
        = .ok ((match r.1.err with
                | some e => (none, some e)
                | none => (some r.1.out, none)),
            { heap := r.2.1, world := r.2.2,
              log := st.log ++
                [{ recv := sv.client, client := st.heap.client? sv.client,
                   call := .Get (sv.formPath ++ "/" ++ formID) .form none }] }) := by
  refine ⟨_, rfl, ?_⟩
  simp only [FormServiceOp.Get, hs, invoke, sprintf2]
  split <;> rename_i he <;> simp only [he]

theorem List_run (t : Transport Any Cfg Err Q W) (s : Ptr) (sv : FormServiceOp)
    (options : Option Q) (st : St Any Cfg Q W) (hs : st.heap.formService? s = some sv) :
    ∃ r : Reply Err (FormResponse Any) × Heap Cfg × W,
      r = t.send sv.client (.Get sv.formPath .formResponse options) st.heap st.world ∧
      FormServiceOp.List t s options st
        = .ok ((match r.1.err with
                | some e => (none, some e)
                | none => (some r.1.out, none)),
            { heap := r.2.1, world := r.2.2,
              log := st.log ++
                [{ recv := sv.client, client := st.heap.client? sv.client,
                   call := .Get sv.formPath .formResponse options }] }) := by
  refine ⟨_, rfl, ?_⟩
  simp only [FormServiceOp.List, hs, invoke]
  split <;> rename_i he <;> simp only [he]

theorem Update_run (t : Transport Any Cfg Err Q W) (s : Ptr) (sv : FormServiceOp)
    (formID : String) (form : Option (Form Any)) (st : St Any Cfg Q W)
    (hs : st.heap.formService? s = some sv) :
    ∃ r : Reply Err (Form Any) × Heap Cfg × W,
      r = t.send sv.client (.Patch (sv.formPath ++ "/" ++ formID) (.form form) .form)
            st.heap st.world ∧
      FormServiceOp.Update t s formID form st
        = .ok ((match r.1.err with
                | some e => (none, some e)
                | none => (some r.1.out, none)),
            { heap := r.2.1, world := r.2.2,
              log := st.log ++
                [{ recv := sv.client, client := st.heap.client? sv.client,
                   call := .Patch (sv.formPath ++ "/" ++ formID) (.form form) .form }] }) := by
  refine ⟨_, rfl, ?_⟩
  simp only [FormServiceOp.Update, hs, invoke, sprintf2]
  split <;> rename_i he <;> simp only [he]

theorem Delete_run (t : Transport Any Cfg Err Q W) (s : Ptr) (sv : FormServiceOp)
    (formID : String) (st : St Any Cfg Q W) (hs : st.heap.formService? s = some sv) :
    ∃ r : Reply Err Unit × Heap Cfg × W,
      r = t.send sv.client (.Delete (sv.formPath ++ "/" ++ formID) .nil) st.heap st.world ∧
      FormServiceOp.Delete t s formID st
        = .ok (r.1.err,
            { heap := r.2.1, world := r.2.2,
              log := st.log ++
                [{ recv := sv.client, client := st.heap.client? sv.client,
                   call := .Delete (sv.formPath ++ "/" ++ formID) .nil }] }) := by
  refine ⟨_, rfl, ?_⟩
  simp only [FormServiceOp.Delete, hs, invoke, sprintf2]

theorem Submit_run (t : Transport Any Cfg Err Q W) (s : Ptr) (sv : FormServiceOp)
    (c : Client Cfg) (portalID formID : String) (submission : Option (FormSubmission Any))
    (st : St Any Cfg Q W) (hs : st.heap.formService? s = some sv)
    (hc : st.heap.client? sv.client = some c) :
    ∃ (a : Ptr × Heap Cfg) (r : Reply Err Unit × Heap Cfg × W),
      a = st.heap.alloc (.client
            { c with baseURL := (urlParse "https://api.hsforms.com").toOption }) ∧
      r = t.send a.1 (.Post (submitPath portalID formID) (.submission submission) .nil)
            a.2 st.world ∧
      FormServiceOp.Submit t s portalID formID submission st
        = .ok (r.1.err,
            { heap := r.2.1, world := r.2.2,
              log := st.log ++
                [{ recv := a.1, client := a.2.client? a.1,
                   call := .Post (submitPath portalID formID) (.submission submission)
                     .nil }] }) := by
  refine ⟨_, _, rfl, rfl, ?_⟩
  simp only [FormServiceOp.Submit, hs, hc, invoke]

/-- C3. Each of the five CRUD operations makes one call of the transport, on the
configured client pointer and on the heap as it is (the configured client unchanged),
and its result, heap and world are the ones that call leaves: Create is Post on the
resource path with the form as body, Get is Get on path/id without query options, List
is Get on the resource path with the caller's options, Update is Patch on path/id with
the form as body, Delete is Delete on path/id without output target. The form is the
body as given, for every form. -/
theorem C3_crud_requests (t : Transport Any Cfg Err Q W) (s : Ptr) (sv : FormServiceOp)
    (c : Client Cfg) (st : St Any Cfg Q W)
    (hs : st.heap.formService? s = some sv) (hc : st.heap.client? sv.client = some c) :
    (∀ form : Option (Form Any), ∃ r : Reply Err (Form Any) × Heap Cfg × W,
      r = t.send sv.client (.Post sv.formPath (.form form) .form) st.heap st.world ∧
      FormServiceOp.Create t s form st
        = .ok ((match r.1.err with
                | some e => (none, some e)
                | none => (some r.1.out, none)),
            { heap := r.2.1, world := r.2.2,
              log := st.log ++
                [{ recv := sv.client, client := some c,
                   call := .Post sv.formPath (.form form) .form }] })) ∧
    (∀ formID : String, ∃ r : Reply Err (Form Any) × Heap Cfg × W,
      r = t.send sv.client (.Get (sv.formPath ++ "/" ++ formID) .form none)
            st.heap st.world ∧
      FormServiceOp.Get t s formID st
        = .ok ((match r.1.err with
                | some e => (none, some e)
                | none => (some r.1.out, none)),
            { heap := r.2.1, world := r.2.2,
              log := st.log ++
                [{ recv := sv.client, client := some c,
                   call := .Get (sv.formPath ++ "/" ++ formID) .form none }] })) ∧
    (∀ options : Option Q, ∃ r : Reply Err (FormResponse Any) × Heap Cfg × W,
      r = t.send sv.client (.Get sv.formPath .formResponse options) st.heap st.world ∧
      FormServiceOp.List t s options st
        = .ok ((match r.1.err with
                | some e => (none, some e)
                | none => (some r.1.out, none)),
            { heap := r.2.1, world := r.2.2,
              log := st.log ++
                [{ recv := sv.client, client := some c,
                   call := .Get sv.formPath .formResponse options }] })) ∧
    (∀ (formID : String) (form : Option (Form Any)),
      ∃ r : Reply Err (Form Any) × Heap Cfg × W,
      r = t.send sv.client (.Patch (sv.formPath ++ "/" ++ formID) (.form form) .form)
            st.heap st.world ∧
      FormServiceOp.Update t s formID form st
        = .ok ((match r.1.err with
                | some e => (none, some e)
                | none => (some r.1.out, none)),
            { heap := r.2.1, world := r.2.2,
              log := st.log ++
                [{ recv := sv.client, client := some c,
                   call := .Patch (sv.formPath ++ "/" ++ formID) (.form form) .form }] })) ∧
    (∀ formID : String, ∃ r : Reply Err Unit × Heap Cfg × W,
      r = t.send sv.client (.Delete (sv.formPath ++ "/" ++ formID) .nil) st.heap st.world ∧
      FormServiceOp.Delete t s formID st
        = .ok (r.1.err,
            { heap := r.2.1, world := r.2.2,
              log := st.log ++
                [{ recv := sv.client, client := some c,
                   call := .Delete (sv.formPath ++ "/" ++ formID) .nil }] })) := by
  refine ⟨?_, ?_, ?_, ?_, ?_⟩
  · intro form
    obtain ⟨r, hr, h⟩ := Create_run t s sv form st hs
    exact ⟨r, hr, by rw [h, hc]⟩
  · intro formID
    obtain ⟨r, hr, h⟩ := Get_run t s sv formID st hs
    exact ⟨r, hr, by rw [h, hc]⟩
  · intro options
    obtain ⟨r, hr, h⟩ := List_run t s sv options st hs
    exact ⟨r, hr, by rw [h, hc]⟩
  · intro formID form
    obtain ⟨r, hr, h⟩ := Update_run t s sv formID form st hs
    exact ⟨r, hr, by rw [h, hc]⟩
  · intro formID
    obtain ⟨r, hr, h⟩ := Delete_run t s sv formID st hs
    exact ⟨r, hr, by rw [h, hc]⟩

/-- C3 with API version `v3`: `Delete("abc123")` makes one round trip, a Delete on
`marketing/v3/forms/abc123` through the configured client. -/
theorem C3_crud_requests_witness :
    ∃ r : Reply Unit Unit × Heap Unit × Nat,
      r = (countingTransport Unit Unit Unit Unit none).send (some 0)
            (.Delete ("marketing/v3/forms" ++ "/" ++ "abc123") .nil)
            countingSt.heap countingSt.world ∧
      FormServiceOp.Delete (countingTransport Unit Unit Unit Unit none) (some 1) "abc123"
          countingSt
        = .ok (r.1.err,
            { heap := r.2.1, world := r.2.2,
              log := countingSt.log ++
                [{ recv := some 0, client := some exampleClient,
                   call := .Delete ("marketing/v3/forms" ++ "/" ++ "abc123") .nil }] }) :=
  (C3_crud_requests (countingTransport Unit Unit Unit Unit none) (some 1)
    { client := some 0, formPath := "marketing/v3/forms" } exampleClient
    countingSt rfl rfl).2.2.2.2 "abc123"

/-- C4. Every operation hands back the transport's error as it is. With `r` the reply
of the one transport call: Create, Get, List and Update return `(nil, e)` when `r.err`
is `e` and `(v, nil)` with `v` the decoded target when `r.err` is nil, so their value
is nil exactly when their error is not; Delete and Submit return `r.err`. -/
theorem C4_errors_unchanged (t : Transport Any Cfg Err Q W) (s : Ptr) (sv : FormServiceOp)
    (c : Client Cfg) (st : St Any Cfg Q W)
    (hs : st.heap.formService? s = some sv) (hc : st.heap.client? sv.client = some c) :
    (∀ form : Option (Form Any),
      ∃ (r : Reply Err (Form Any)) (v : Option (Form Any)) (e : Option Err) (st1 : St Any Cfg Q W),
        r = (t.send sv.client (.Post sv.formPath (.form form) .form) st.heap st.world).1 ∧
        FormServiceOp.Create t s form st = .ok ((v, e), st1) ∧
        e = r.err ∧ (r.err = none → v = some r.out) ∧ (r.err ≠ none → v = none) ∧
        (v = none ↔ e ≠ none)) ∧
    (∀ formID : String,
      ∃ (r : Reply Err (Form Any)) (v : Option (Form Any)) (e : Option Err) (st1 : St Any Cfg Q W),
        r = (t.send sv.client (.Get (sprintf2 sv.formPath formID) .form none)
              st.heap st.world).1 ∧
        FormServiceOp.Get t s formID st = .ok ((v, e), st1) ∧
        e = r.err ∧ (r.err = none → v = some r.out) ∧ (r.err ≠ none → v = none) ∧
        (v = none ↔ e ≠ none)) ∧
    (∀ options : Option Q,
      ∃ (r : Reply Err (FormResponse Any)) (v : Option (FormResponse Any)) (e : Option Err)
        (st1 : St Any Cfg Q W),
        r = (t.send sv.client (.Get sv.formPath .formResponse options) st.heap st.world).1 ∧
        FormServiceOp.List t s options st = .ok ((v, e), st1) ∧
        e = r.err ∧ (r.err = none → v = some r.out) ∧ (r.err ≠ none → v = none) ∧
        (v = none ↔ e ≠ none)) ∧
    (∀ (formID : String) (form : Option (Form Any)),
      ∃ (r : Reply Err (Form Any)) (v : Option (Form Any)) (e : Option Err) (st1 : St Any Cfg Q W),
        r = (t.send sv.client (.Patch (sprintf2 sv.formPath formID) (.form form) .form)
              st.heap st.world).1 ∧
        FormServiceOp.Update t s formID form st = .ok ((v, e), st1) ∧
        e = r.err ∧ (r.err = none → v = some r.out) ∧ (r.err ≠ none → v = none) ∧
        (v = none ↔ e ≠ none)) ∧
    (∀ formID : String, ∃ st1,
      FormServiceOp.Delete t s formID st
        = .ok ((t.send sv.client (.Delete (sprintf2 sv.formPath formID) .nil)
                  st.heap st.world).1.err, st1)) ∧
    (∀ (portalID formID : String) (submission : Option (FormSubmission Any)), ∃ st1,
      FormServiceOp.Submit t s portalID formID submission st
        = .ok ((t.send
                  (st.heap.alloc (.client
                    { c with baseURL := (urlParse "https://api.hsforms.com").toOption })).1
                  (.Post (submitPath portalID formID) (.submission submission) .nil)
                  (st.heap.alloc (.client
                    { c with baseURL := (urlParse "https://api.hsforms.com").toOption })).2
                  st.world).1.err, st1)) := by
  refine ⟨?_, ?_, ?_, ?_, ?_, ?_⟩
  · intro form
    simp only [FormServiceOp.Create, hs, invoke]
    split
    next e he => exact ⟨_, _, _, _, rfl, rfl, he.symm, by simp [he], by simp, by simp⟩
    next he => exact ⟨_, _, _, _, rfl, rfl, he.symm, by simp, by simp [he], by simp⟩
  · intro formID
    simp only [FormServiceOp.Get, hs, invoke]
    split
    next e he => exact ⟨_, _, _, _, rfl, rfl, he.symm, by simp [he], by simp, by simp⟩
    next he => exact ⟨_, _, _, _, rfl, rfl, he.symm, by simp, by simp [he], by simp⟩
  · intro options
    simp only [FormServiceOp.List, hs, invoke]
    split
    next e he => exact ⟨_, _, _, _, rfl, rfl, he.symm, by simp [he], by simp, by simp⟩
    next he => exact ⟨_, _, _, _, rfl, rfl, he.symm, by simp, by simp [he], by simp⟩
  · intro formID form
    simp only [FormServiceOp.Update, hs, invoke]
    split
    next e he => exact ⟨_, _, _, _, rfl, rfl, he.symm, by simp [he], by simp, by simp⟩
    next he => exact ⟨_, _, _, _, rfl, rfl, he.symm, by simp, by simp [he], by simp⟩
  · intro formID
    simp only [FormServiceOp.Delete, hs, invoke]
    exact ⟨_, rfl⟩
  · intro portalID formID submission
    simp only [FormServiceOp.Submit, hs, hc, invoke]
    exact ⟨_, rfl⟩


/-- C4 on the example heap with a transport that reports the error `404`: Delete
returns that error. -/
theorem C4_errors_unchanged_witness :
    ∃ st1, FormServiceOp.Delete (constTransport Unit Unit Nat Unit Unit (some 404)) (some 1)
      "abc123" exampleSt = .ok (some 404, st1) :=
  (C4_errors_unchanged (constTransport Unit Unit Nat Unit Unit (some 404)) (some 1)
    { client := some 0, formPath := "marketing/v3/forms" } exampleClient
    exampleSt rfl rfl).2.2.2.2.1 "abc123"

/-- C5. No retries: whatever the transport answers, one call of Create, Get, List,
Update, Delete or Submit applies the transport exactly once. The heap and the world
after the operation are the ones that a single `send`, applied to the world the
operation started in, leaves, and the record of transport calls grows by exactly one
entry, so from an empty record it has length 1. -/
theorem C5_exactly_one_attempt (t : Transport Any Cfg Err Q W) (s : Ptr) (sv : FormServiceOp)
    (c : Client Cfg) (st : St Any Cfg Q W)
    (hs : st.heap.formService? s = some sv) (hc : st.heap.client? sv.client = some c) :
    (∀ form : Option (Form Any), ∃ (r : Reply Err (Form Any) × Heap Cfg × W) (res :
        Option (Form Any) × Option Err) (st1 : St Any Cfg Q W),
      r = t.send sv.client (.Post sv.formPath (.form form) .form) st.heap st.world ∧
      FormServiceOp.Create t s form st = .ok (res, st1) ∧
      res.2 = r.1.err ∧ st1.heap = r.2.1 ∧ st1.world = r.2.2 ∧
      st1.log.length = st.log.length + 1 ∧ (st.log = [] → st1.log.length = 1)) ∧
    (∀ formID : String, ∃ (r : Reply Err (Form Any) × Heap Cfg × W) (res :
        Option (Form Any) × Option Err) (st1 : St Any Cfg Q W),
      r = t.send sv.client (.Get (sv.formPath ++ "/" ++ formID) .form none)
            st.heap st.world ∧
      FormServiceOp.Get t s formID st = .ok (res, st1) ∧
      res.2 = r.1.err ∧ st1.heap = r.2.1 ∧ st1.world = r.2.2 ∧
      st1.log.length = st.log.length + 1 ∧ (st.log = [] → st1.log.length = 1)) ∧
    (∀ options : Option Q, ∃ (r : Reply Err (FormResponse Any) × Heap Cfg × W) (res :
        Option (FormResponse Any) × Option Err) (st1 : St Any Cfg Q W),
      r = t.send sv.client (.Get sv.formPath .formResponse options) st.heap st.world ∧
      FormServiceOp.List t s options st = .ok (res, st1) ∧
      res.2 = r.1.err ∧ st1.heap = r.2.1 ∧ st1.world = r.2.2 ∧
      st1.log.length = st.log.length + 1 ∧ (st.log = [] → st1.log.length = 1)) ∧
    (∀ (formID : String) (form : Option (Form Any)),
      ∃ (r : Reply Err (Form Any) × Heap Cfg × W) (res : Option (Form Any) × Option Err)
        (st1 : St Any Cfg Q W),
      r = t.send sv.client (.Patch (sv.formPath ++ "/" ++ formID) (.form form) .form)
            st.heap st.world ∧
      FormServiceOp.Update t s formID form st = .ok (res, st1) ∧
      res.2 = r.1.err ∧ st1.heap = r.2.1 ∧ st1.world = r.2.2 ∧
      st1.log.length = st.log.length + 1 ∧ (st.log = [] → st1.log.length = 1)) ∧
    (∀ formID : String, ∃ (r : Reply Err Unit × Heap Cfg × W) (res : Option Err)
        (st1 : St Any Cfg Q W),
      r = t.send sv.client (.Delete (sv.formPath ++ "/" ++ formID) .nil) st.heap st.world ∧
      FormServiceOp.Delete t s formID st = .ok (res, st1) ∧
      res = r.1.err ∧ st1.heap = r.2.1 ∧ st1.world = r.2.2 ∧
      st1.log.length = st.log.length + 1 ∧ (st.log = [] → st1.log.length = 1)) ∧
    (∀ (portalID formID : String) (submission : Option (FormSubmission Any)),
      ∃ (a : Ptr × Heap Cfg) (r : Reply Err Unit × Heap Cfg × W) (res : Option Err)
        (st1 : St Any Cfg Q W),
      a = st.heap.alloc (.client
            { c with baseURL := (urlParse "https://api.hsforms.com").toOption }) ∧
      r = t.send a.1 (.Post (submitPath portalID formID) (.submission submission) .nil)
            a.2 st.world ∧
      FormServiceOp.Submit t s portalID formID submission st = .ok (res, st1) ∧
      res = r.1.err ∧ st1.heap = r.2.1 ∧ st1.world = r.2.2 ∧
      st1.log.length = st.log.length + 1 ∧ (st.log = [] → st1.log.length = 1)) := by
  have key : ∀ (l : List (Issued Any Cfg Q)) (i : Issued Any Cfg Q),
      (l ++ [i]).length = l.length + 1 ∧ (l = [] → (l ++ [i]).length = 1) := by
    intro l i
    constructor
    · simp
    · intro h; simp [h]
  have val : ∀ {α : Type} (e : Option Err) (v : α),
      (match e with
        | some e1 => ((none : Option α), some e1)
        | none => (some v, none)).2 = e := by
    intro α e v
    cases e <;> rfl
  refine ⟨?_, ?_, ?_, ?_, ?_, ?_⟩
  · intro form
    obtain ⟨r, hr, h⟩ := Create_run t s sv form st hs
    exact ⟨r, _, _, hr, h, val _ _, rfl, rfl, key _ _⟩
  · intro formID
    obtain ⟨r, hr, h⟩ := Get_run t s sv formID st hs
    exact ⟨r, _, _, hr, h, val _ _, rfl, rfl, key _ _⟩
  · intro options
    obtain ⟨r, hr, h⟩ := List_run t s sv options st hs
    exact ⟨r, _, _, hr, h, val _ _, rfl, rfl, key _ _⟩
  · intro formID form
    obtain ⟨r, hr, h⟩ := Update_run t s sv formID form st hs
    exact ⟨r, _, _, hr, h, val _ _, rfl, rfl, key _ _⟩
  · intro formID
    obtain ⟨r, hr, h⟩ := Delete_run t s sv formID st hs
    exact ⟨r, _, _, hr, h, rfl, rfl, rfl, key _ _⟩
  · intro portalID formID submission
    obtain ⟨a, r, ha, hr, h⟩ := Submit_run t s sv c portalID formID submission st hs hc
    exact ⟨a, r, _, _, ha, hr, h, rfl, rfl, rfl, key _ _⟩

/-- C5 on the example heap with a failing transport that counts its round trips: after
the failed Create the count is 1 and the record has one entry. -/
theorem C5_exactly_one_attempt_witness :
    ∃ (res : Option (Form Unit) × Option Nat) (st1 : St Unit Unit Unit Nat),
      FormServiceOp.Create (countingTransport Unit Unit Nat Unit (some 500)) (some 1) none
        countingSt = .ok (res, st1) ∧
      res.2 = some 500 ∧ countingSt.world = 0 ∧ st1.world = 1 ∧ st1.log.length = 1 :=
  let ⟨_, res, st1, hr, h, he, _, hw, _, hl⟩ :=
    (C5_exactly_one_attempt (countingTransport Unit Unit Nat Unit (some 500)) (some 1)
      { client := some 0, formPath := "marketing/v3/forms" } exampleClient
      countingSt rfl rfl).1 none
  ⟨res, st1, h, by rw [he, hr]; rfl, rfl, by rw [hw, hr]; rfl, hl rfl⟩

/-- C6. For a client with API version `v`, NewFormService returns a service whose
client is the given pointer and whose resource path is `marketing/v/forms`, leaving
the client as it was; the Form service that newMarketing registers has the same client
and the same path. -/
theorem C6_resource_path {E : Type} (NewMarketingEmail : Ptr → E)
    (transactionalBasePath : String) (client : Ptr) (c : Client Cfg) (h : Heap Cfg)
    (hc : h.client? client = some c) :
    (∃ p h1, NewFormService client h = .ok (p, h1) ∧
      h1.formService? p
        = some { client := client,
                 formPath := "marketing" ++ "/" ++ c.apiVersion ++ "/" ++ "forms" } ∧
      h1.client? client = some c) ∧
    (∃ m h1, newMarketing NewMarketingEmail transactionalBasePath client h = .ok (m, h1) ∧
      h1.formService? m.Form
        = some { client := client,
                 formPath := "marketing" ++ "/" ++ c.apiVersion ++ "/" ++ "forms" } ∧
      h1.client? client = some c) := by
  constructor
  · simp only [NewFormService, hc]
    exact ⟨_, _, rfl, Heap.formService?_alloc_new _ _, Heap.client?_alloc_old _ _ _ _ hc⟩
  · simp only [newMarketing, NewFormService, hc]
    exact ⟨_, _, rfl, Heap.formService?_alloc_new _ _, Heap.client?_alloc_old _ _ _ _ hc⟩

/-- C6 for API version `v3`: the path is `marketing/v3/forms`. -/
theorem C6_resource_path_witness :
    "marketing" ++ "/" ++ "v3" ++ "/" ++ "forms" = "marketing/v3/forms" ∧
    ∃ p h1, NewFormService (some 0) clientHeap = .ok (p, h1) ∧
      h1.formService? p
        = some { client := some 0,
                 formPath := "marketing" ++ "/" ++ "v3" ++ "/" ++ "forms" } ∧
      h1.client? (some 0) = some exampleClient :=
  ⟨by decide,
   (C6_resource_path (fun _ => ()) "email/public" (some 0) exampleClient clientHeap rfl).1⟩

end ServiceTheorems

section PathTheorems

theorem append_sep_inj (a b a1 b1 : List Char) (ha : '/' ∉ a) (ha1 : '/' ∉ a1)
    (h : a ++ '/' :: b = a1 ++ '/' :: b1) : a = a1 ∧ b = b1 := by
  induction a generalizing a1 with
  | nil =>
    cases a1 with
    | nil => simpa using h
    | cons x xs =>
      simp only [List.nil_append, List.cons_append, List.cons.injEq] at h
      exact absurd h.1 (by intro e; apply ha1; simp [← e])
  | cons y ys ih =>
    cases a1 with
    | nil =>
      simp only [List.nil_append, List.cons_append, List.cons.injEq] at h
      exact absurd h.1 (by intro e; apply ha; simp [e])
    | cons x xs =>
      simp only [List.cons_append, List.cons.injEq] at h
      have hy : '/' ∉ ys := fun m => ha (List.mem_cons_of_mem _ m)
      have hx : '/' ∉ xs := fun m => ha1 (List.mem_cons_of_mem _ m)
      obtain ⟨e1, e2⟩ := ih xs hy hx h.2
      exact ⟨by rw [h.1, e1], e2⟩

/-- C10. The identifiers are spliced into the Submit path as they are, and for
identifiers without the character `/` the path determines them: equal paths come from
equal portal and form identifiers. -/
theorem C10_submit_path_injective (portalID formID portalID1 formID1 : String)
    (h1 : '/' ∉ portalID.data) (_h2 : '/' ∉ formID.data)
    (h3 : '/' ∉ portalID1.data) (_h4 : '/' ∉ formID1.data)
    (h : submitPath portalID formID = submitPath portalID1 formID1) :
    portalID = portalID1 ∧ formID = formID1 := by
  have hd := congrArg String.data h
  simp only [submitPath, String.data_append, List.append_assoc] at hd
  have hd1 := List.append_cancel_left hd
  simp only [List.singleton_append] at hd1
  obtain ⟨e1, e2⟩ := append_sep_inj _ _ _ _ h1 h3 hd1
  exact ⟨String.ext e1, String.ext e2⟩

/-- With a slash inside an identifier two different targets get the same path. -/
theorem submitPath_collision : submitPath "a/b" "c" = submitPath "a" "b/c" := by
  decide

/-- C10 at the identifiers `12345` and `form-1`. -/
theorem C10_submit_path_injective_witness :
    submitPath "12345" "form-1"
        = "/submissions/v3/integration/secure/submit/12345/form-1" ∧
      ("12345" = "12345" ∧ "form-1" = "form-1") :=
  ⟨by decide,
   C10_submit_path_injective "12345" "form-1" "12345" "form-1"
     (by decide) (by decide) (by decide) (by decide) rfl⟩

end PathTheorems


section EncodingTheorems

variable {Any : Type}

@[simp] theorem members_nil : members [] = [] := rfl

@[simp] theorem members_cons (f : List (String × JSON)) (fs : List (List (String × JSON))) :
    members (f :: fs) = f ++ members fs := rfl

theorem lookupMember_field (key tag : String) (v : JSON) (rest : List (String × JSON)) :
    lookupMember key (field tag v ++ rest)
      = if tag = key then some v else lookupMember key rest := by
  simp [field, lookupMember]

theorem lookupMember_fieldOmitEmpty (key tag : String) (e : Bool) (v : JSON)
    (rest : List (String × JSON)) :
    lookupMember key (fieldOmitEmpty tag e v ++ rest)
      = if e = true then lookupMember key rest
        else if tag = key then some v else lookupMember key rest := by
  cases e <;> simp [fieldOmitEmpty, lookupMember]

theorem lookupMember_field_last (key tag : String) (v : JSON) :
    lookupMember key (field tag v) = if tag = key then some v else none := by
  simp [field, lookupMember]

theorem lookupMember_fieldOmitEmpty_last (key tag : String) (e : Bool) (v : JSON) :
    lookupMember key (fieldOmitEmpty tag e v)
      = if e = true then none else if tag = key then some v else none := by
  cases e <;> simp [fieldOmitEmpty, lookupMember]

theorem omitsWhenEmpty_of (j : JSON) (key : String) (e : Bool) (v : JSON)
    (h : j.member? key = if e = true then none else some v) (hv : e = false → v.isNull = false) :
    OmitsWhenEmpty j key e := by
  cases e
  · exact ⟨by simp, fun _ => ⟨v, by simpa using h, hv rfl⟩⟩
  · exact ⟨fun _ => by simpa using h, by simp⟩

theorem encSlice_isNull {α : Type} (enc : α → JSON) (o : Slice α) (h : emptyLen o = false) :
    (encSlice enc o).isNull = false := by
  cases o with
  | none => simp [emptyLen] at h
  | some l => rfl

theorem encPtr_isNull {α : Type} (enc : α → JSON) (o : Option α) (h : emptyPtr o = false)
    (henc : ∀ a, (enc a).isNull = false) : (encPtr enc o).isNull = false := by
  cases o with
  | none => simp [emptyPtr] at h
  | some a => exact henc a

/-- C8, where the claim fails: the zero `LegalConsentOptions` has an empty `Type` and a
nil `CommunicationsCheckboxes`, and its encoding has a member `type` (the empty string)
and a member `communicationsCheckboxes` that is `null`. -/
theorem C8_counterexample :
    LegalConsentOptions.zero.Type_ = "" ∧
    LegalConsentOptions.zero.CommunicationsCheckboxes = none ∧
    (encLegalConsentOptions LegalConsentOptions.zero).member? "type" = some (.str "") ∧
    (encLegalConsentOptions LegalConsentOptions.zero).member? "communicationsCheckboxes"
      = some .null ∧
    ¬ OmitsWhenEmpty (encLegalConsentOptions LegalConsentOptions.zero) "type"
        (emptyString LegalConsentOptions.zero.Type_) ∧
    ¬ OmitsWhenEmpty (encLegalConsentOptions LegalConsentOptions.zero)
        "communicationsCheckboxes" (emptyLen LegalConsentOptions.zero.CommunicationsCheckboxes) := by
  refine ⟨rfl, rfl, rfl, rfl, ?_, ?_⟩
  · intro h
    have h1 := h.1 rfl
    have h2 : (encLegalConsentOptions LegalConsentOptions.zero).member? "type"
        = some (.str "") := rfl
    rw [h2] at h1
    exact Option.noConfusion h1
  · intro h
    have h1 := h.1 rfl
    have h2 : (encLegalConsentOptions LegalConsentOptions.zero).member?
        "communicationsCheckboxes" = some .null := rfl
    rw [h2] at h1
    exact Option.noConfusion h1

/-- C8, as the struct tags have it. The fields tagged `omitempty` that the data model
marks optional are omitted when empty and never `null`: `Form.LegalConsentOptions`,
`FormField.Validation`, `FormField.DependentFields`,
`FormSubmission.LegalConsentOptions`, and `Consent`, `ConsentToProcess`, `Text` and
`Communications` of `LegalConsentOptions`. The six fields of `LegalConsentOptions`
without `omitempty` are written in every encoding, the nil `CommunicationsCheckboxes`
as `null`. -/
theorem C8_omitempty_fields (encAny : Any → JSON) (f : Form Any) (fld : FormField Any)
    (sub : FormSubmission Any) (l : LegalConsentOptions) :
    OmitsWhenEmpty (encForm encAny f) "legalConsentOptions" (emptyPtr f.LegalConsentOptions) ∧
    OmitsWhenEmpty (encFormField encAny fld) "validation" (emptyPtr fld.Validation) ∧
    OmitsWhenEmpty (encFormField encAny fld) "dependentFields" (emptyLen fld.DependentFields) ∧
    OmitsWhenEmpty (encFormSubmission encAny sub) "legalConsentOptions"
      (emptyPtr sub.LegalConsentOptions) ∧
    OmitsWhenEmpty (encLegalConsentOptions l) "consent" (emptyString l.Consent) ∧
    OmitsWhenEmpty (encLegalConsentOptions l) "consentToProcess" (emptyBool l.ConsentToProcess) ∧
    OmitsWhenEmpty (encLegalConsentOptions l) "text" (emptyString l.Text) ∧
    OmitsWhenEmpty (encLegalConsentOptions l) "communications" (emptyLen l.Communications) ∧
    AlwaysWrites (encLegalConsentOptions l) "type" (.str l.Type_) ∧
    AlwaysWrites (encLegalConsentOptions l) "communicationConsentText"
      (.str l.CommunicationConsentText) ∧
    AlwaysWrites (encLegalConsentOptions l) "communicationsCheckboxes"
      (match l.CommunicationsCheckboxes with
       | none => .null
       | some cs => .arr (cs.map encCommunicationCheckbox)) ∧
    AlwaysWrites (encLegalConsentOptions l) "consentToProcessText"
      (.str l.ConsentToProcessText) ∧
    AlwaysWrites (encLegalConsentOptions l) "consentToProcessCheckboxLabel"
      (.str l.ConsentToProcessCheckboxLabel) ∧
    AlwaysWrites (encLegalConsentOptions l) "privacyText" (.str l.PrivacyText) := by
  refine ⟨?_, ?_, ?_, ?_, ?_, ?_, ?_, ?_, ?_, ?_, ?_, ?_, ?_, ?_⟩
  · apply omitsWhenEmpty_of _ _ _ (encPtr encLegalConsentOptions f.LegalConsentOptions)
    · simp [encForm, JSON.member?, lookupMember_field, lookupMember_fieldOmitEmpty,
        lookupMember_field_last, lookupMember_fieldOmitEmpty_last]
    · intro h; exact encPtr_isNull _ _ h (fun _ => rfl)
  · apply omitsWhenEmpty_of _ _ _ (encPtr encFormFieldValidation fld.Validation)
    · simp [encFormField, JSON.member?, lookupMember_field, lookupMember_fieldOmitEmpty,
        lookupMember_field_last, lookupMember_fieldOmitEmpty_last]
    · intro h; exact encPtr_isNull _ _ h (fun _ => rfl)
  · apply omitsWhenEmpty_of _ _ _ (encSlice JSON.str fld.DependentFields)
    · simp [encFormField, JSON.member?, lookupMember_field, lookupMember_fieldOmitEmpty,
        lookupMember_field_last, lookupMember_fieldOmitEmpty_last]
    · intro h; exact encSlice_isNull _ _ h
  · apply omitsWhenEmpty_of _ _ _ (encPtr encLegalConsentOptions sub.LegalConsentOptions)
    · simp [encFormSubmission, JSON.member?, lookupMember_field, lookupMember_fieldOmitEmpty,
        lookupMember_field_last, lookupMember_fieldOmitEmpty_last]
    · intro h; exact encPtr_isNull _ _ h (fun _ => rfl)
  · apply omitsWhenEmpty_of _ _ _ (.str l.Consent)
    · simp [encLegalConsentOptions, JSON.member?, lookupMember_field,
        lookupMember_fieldOmitEmpty, lookupMember_field_last, lookupMember_fieldOmitEmpty_last]
    · intro _; rfl
  · apply omitsWhenEmpty_of _ _ _ (.bool l.ConsentToProcess)
    · simp [encLegalConsentOptions, JSON.member?, lookupMember_field,
        lookupMember_fieldOmitEmpty, lookupMember_field_last, lookupMember_fieldOmitEmpty_last]
    · intro _; rfl
  · apply omitsWhenEmpty_of _ _ _ (.str l.Text)
    · simp [encLegalConsentOptions, JSON.member?, lookupMember_field,
        lookupMember_fieldOmitEmpty, lookupMember_field_last, lookupMember_fieldOmitEmpty_last]
    · intro _; rfl
  · apply omitsWhenEmpty_of _ _ _ (encSlice JSON.str l.Communications)
    · simp [encLegalConsentOptions, JSON.member?, lookupMember_field,
        lookupMember_fieldOmitEmpty, lookupMember_field_last, lookupMember_fieldOmitEmpty_last]
    · intro h; exact encSlice_isNull _ _ h
  all_goals
    simp only [AlwaysWrites, encLegalConsentOptions, JSON.member?, members_cons,
      lookupMember_field]
    first
      | rfl
      | (cases l.CommunicationsCheckboxes <;> rfl)

end EncodingTheorems

section RoundTripLemmas

variable {Any : Type}

theorem foldl_field {σ : Type} (F : σ → String × JSON → σ) (k : String) (v : JSON) (s : σ) :
    (field k v).foldl F s = F s (k, v) := rfl

theorem foldl_fieldOmitEmpty {σ : Type} (F : σ → String × JSON → σ) (k : String) (e : Bool)
    (v : JSON) (s : σ) :
    (fieldOmitEmpty k e v).foldl F s = if e = true then s else F s (k, v) := by
  cases e <;> rfl

theorem ite_pair {α β : Type} (c : Prop) [Decidable c] (a b : α) (e : β) :
    (if c then (a, e) else (b, e)) = ((if c then a else b), e) := by
  split <;> rfl

theorem ite_emptyString (a : String) : (if emptyString a = true then "" else a) = a := by
  unfold emptyString; split <;> simp_all

theorem ite_emptyPtr {α : Type} (p : Option α) :
    (if emptyPtr p = true then none else p) = p := by
  cases p <;> rfl

theorem ite_emptyPtr_map {α : Type} (f : α → α) (p : Option α) :
    (if emptyPtr p = true then none else p.map f) = p.map f := by
  cases p <;> rfl

theorem ite_emptyLen {α : Type} (o : Option (List α)) :
    (if emptyLen o = true then none else o) = nilIfEmpty o := by
  cases o with
  | none => rfl
  | some l => cases l <;> rfl

theorem decElems_map {α : Type} (d : Dec α) (zero : α) (enc : α → JSON) (f : α → α)
    (l : List α) (h : ∀ x ∈ l, d (enc x) zero = (f x, none)) :
    decElems d zero (l.map enc) [] = (l.map f, none) := by
  induction l with
  | nil => rfl
  | cons a as ih =>
    have ha := h a (List.mem_cons_self _ _)
    have ih1 := ih (fun x hx => h x (List.mem_cons_of_mem _ hx))
    simp [decElems, ha, ih1, firstErr]

theorem decSlice_encSlice {α : Type} (d : Dec α) (zero : α) (enc : α → JSON) (f : α → α)
    (o : Slice α) (h : ∀ l, o = some l → ∀ x ∈ l, d (enc x) zero = (f x, none)) :
    decSlice d zero (encSlice enc o) none = (o.map (List.map f), none) := by
  cases o with
  | none => rfl
  | some l => simp [encSlice, decSlice, decElems_map d zero enc f l (h l rfl)]

theorem decSlice_encSlice_id {α : Type} (d : Dec α) (zero : α) (enc : α → JSON)
    (o : Slice α) (h : ∀ l, o = some l → ∀ x ∈ l, d (enc x) zero = (x, none)) :
    decSlice d zero (encSlice enc o) none = (o, none) := by
  have := decSlice_encSlice d zero enc id o h
  simpa using this

@[simp] theorem decSlice_string (o : Slice String) :
    decSlice decString "" (encSlice JSON.str o) none = (o, none) :=
  decSlice_encSlice_id decString "" JSON.str o (fun _ _ _ _ => rfl)

theorem decPtr_encPtr {α : Type} (d : Dec α) (zero : α) (enc : α → JSON) (f : α → α)
    (o : Option α) (hn : ∀ x, (enc x).isNull = false)
    (h : ∀ x, o = some x → d (enc x) zero = (f x, none)) :
    decPtr d zero (encPtr enc o) none = (o.map f, none) := by
  cases o with
  | none => rfl
  | some x =>
    have hx := h x rfl
    have hnx := hn x
    simp only [encPtr, Option.map]
    cases he : enc x with
    | null => rw [he] at hnx; simp [JSON.isNull] at hnx
    | _ => rw [he] at hx; simp [decPtr, hx]

theorem mapInsert_last (k : String) (v : Any) (m : List (String × Any))
    (h : ∀ e ∈ m, e.1 < k) : mapInsert k v m = m ++ [(k, v)] := by
  induction m with
  | nil => rfl
  | cons e es ih =>
    obtain ⟨k0, w⟩ := e
    have h0 : k0 < k := h (k0, w) (List.mem_cons_self _ _)
    have h1 : ¬ k < k0 := lt_asymm h0
    have h2 : ¬ k = k0 := fun e => (lt_irrefl k0) (e ▸ h0)
    simp only [mapInsert, h1, h2, if_false, List.cons_append]
    rw [ih (fun e he => h e (List.mem_cons_of_mem _ he))]

theorem foldl_mapInsert (encAny : Any → JSON) (decAny : JSON → Any)
    (l acc : List (String × Any))
    (hs : (l.map Prod.fst).Pairwise (fun a b => a < b))
    (hv : ∀ kv ∈ l, decAny (encAny kv.2) = kv.2)
    (hacc : ∀ a ∈ acc, ∀ b ∈ l, a.1 < b.1) :
    (l.map (fun kv => (kv.1, encAny kv.2))).foldl
        (fun m kv => mapInsert kv.1 (decAny kv.2) m) acc = acc ++ l := by
  induction l generalizing acc with
  | nil => simp
  | cons x xs ih =>
    obtain ⟨k, v⟩ := x
    simp only [List.map_cons, List.pairwise_cons, List.mem_map, forall_exists_index,
      and_imp] at hs
    have hx := hv (k, v) (List.mem_cons_self _ _)
    simp only at hx
    simp only [List.map_cons, List.foldl_cons, hx]
    rw [mapInsert_last k v acc (fun e he => hacc e he (k, v) (List.mem_cons_self _ _))]
    rw [ih (acc ++ [(k, v)]) hs.2 (fun kv hkv => hv kv (List.mem_cons_of_mem _ hkv))]
    · simp
    · intro a ha b hb
      rcases List.mem_append.1 ha with h | h
      · exact hacc a h b (List.mem_cons_of_mem _ hb)
      · simp only [List.mem_singleton] at h
        subst h
        exact hs.1 b.1 b hb rfl

theorem decMap_encMap (encAny : Any → JSON) (decAny : JSON → Any) (m : GoMap Any)
    (h : GoMap.ReadsBack encAny decAny m) :
    decMap decAny (encMap encAny m) none = (m, none) := by
  cases m with
  | none => rfl
  | some l =>
    obtain ⟨hs, hv⟩ := h l rfl
    have := foldl_mapInsert encAny decAny l [] hs hv (by simp)
    simp only [encMap, decMap, Option.getD_none, this, List.nil_append]

theorem decMap_encMap_err (encAny : Any → JSON) (decAny : JSON → Any) (m : GoMap Any) :
    (decMap decAny (encMap encAny m) none).2 = none := by
  cases m <;> rfl

end RoundTripLemmas

section MatchFieldLemmas

@[simp] theorem fieldSetter_FormFieldValidation_BlockedEmailDomains (v : JSON)
    (x : FormFieldValidation) :
    fieldSetter FormFieldValidation.fieldTable "blockedEmailDomains" v x
      = assign (decSlice decString "" v x.BlockedEmailDomains)
          (fun a => { x with BlockedEmailDomains := a }) := rfl

@[simp] theorem fieldSetter_FormFieldValidation_UseDefaultBlockList (v : JSON)
    (x : FormFieldValidation) :
    fieldSetter FormFieldValidation.fieldTable "useDefaultBlockList" v x
      = assign (decBool v x.UseDefaultBlockList)
          (fun a => { x with UseDefaultBlockList := a }) := rfl

@[simp] theorem fieldSetter_FormFieldOption_Label (v : JSON)
    (x : FormFieldOption) :
    fieldSetter FormFieldOption.fieldTable "label" v x
      = assign (decString v x.Label)
          (fun a => { x with Label := a }) := rfl

@[simp] theorem fieldSetter_FormFieldOption_Value (v : JSON)
    (x : FormFieldOption) :
    fieldSetter FormFieldOption.fieldTable "value" v x
      = assign (decString v x.Value)
          (fun a => { x with Value := a }) := rfl

@[simp] theorem fieldSetter_FormField_ObjectTypeId {Any : Type} (decAny : JSON → Any) (v : JSON)
    (x : FormField Any) :
    fieldSetter (FormField.fieldTable decAny) "objectTypeId" v x
      = assign (decString v x.ObjectTypeId)
          (fun a => { x with ObjectTypeId := a }) := rfl

@[simp] theorem fieldSetter_FormField_Name {Any : Type} (decAny : JSON → Any) (v : JSON)
    (x : FormField Any) :
    fieldSetter (FormField.fieldTable decAny) "name" v x
      = assign (decString v x.Name)
          (fun a => { x with Name := a }) := rfl

@[simp] theorem fieldSetter_FormField_Label {Any : Type} (decAny : JSON → Any) (v : JSON)
    (x : FormField Any) :
    fieldSetter (FormField.fieldTable decAny) "label" v x
      = assign (decString v x.Label)
          (fun a => { x with Label := a }) := rfl

@[simp] theorem fieldSetter_FormField_Required {Any : Type} (decAny : JSON → Any) (v : JSON)
    (x : FormField Any) :
    fieldSetter (FormField.fieldTable decAny) "required" v x
      = assign (decBool v x.Required)
          (fun a => { x with Required := a }) := rfl

@[simp] theorem fieldSetter_FormField_Hidden {Any : Type} (decAny : JSON → Any) (v : JSON)
    (x : FormField Any) :
    fieldSetter (FormField.fieldTable decAny) "hidden" v x
      = assign (decBool v x.Hidden)
          (fun a => { x with Hidden := a }) := rfl

@[simp] theorem fieldSetter_FormField_FieldType {Any : Type} (decAny : JSON → Any) (v : JSON)
    (x : FormField Any) :
    fieldSetter (FormField.fieldTable decAny) "fieldType" v x
      = assign (decString v x.FieldType)
          (fun a => { x with FieldType := a }) := rfl

@[simp] theorem fieldSetter_FormField_Validation {Any : Type} (decAny : JSON → Any) (v : JSON)
    (x : FormField Any) :
    fieldSetter (FormField.fieldTable decAny) "validation" v x
      = assign (decPtr decFormFieldValidation FormFieldValidation.zero v x.Validation)
          (fun a => { x with Validation := a }) := rfl

@[simp] theorem fieldSetter_FormField_Placeholder {Any : Type} (decAny : JSON → Any) (v : JSON)
    (x : FormField Any) :
    fieldSetter (FormField.fieldTable decAny) "placeholder" v x
      = assign (decString v x.Placeholder)
          (fun a => { x with Placeholder := a }) := rfl

@[simp] theorem fieldSetter_FormField_HelpText {Any : Type} (decAny : JSON → Any) (v : JSON)
    (x : FormField Any) :
    fieldSetter (FormField.fieldTable decAny) "helpText" v x
      = assign (decString v x.HelpText)
          (fun a => { x with HelpText := a }) := rfl

@[simp] theorem fieldSetter_FormField_Options {Any : Type} (decAny : JSON → Any) (v : JSON)
    (x : FormField Any) :
    fieldSetter (FormField.fieldTable decAny) "options" v x
      = assign (decSlice decFormFieldOption FormFieldOption.zero v x.Options)
          (fun a => { x with Options := a }) := rfl

@[simp] theorem fieldSetter_FormField_Properties {Any : Type} (decAny : JSON → Any) (v : JSON)
    (x : FormField Any) :
    fieldSetter (FormField.fieldTable decAny) "properties" v x
      = assign (decMap decAny v x.Properties)
          (fun a => { x with Properties := a }) := rfl

@[simp] theorem fieldSetter_FormField_DependentFields {Any : Type} (decAny : JSON → Any) (v : JSON)
    (x : FormField Any) :
    fieldSetter (FormField.fieldTable decAny) "dependentFields" v x
      = assign (decSlice decString "" v x.DependentFields)
          (fun a => { x with DependentFields := a }) := rfl

@[simp] theorem fieldSetter_FormFieldGroup_GroupType {Any : Type} (decAny : JSON → Any) (v : JSON)
    (x : FormFieldGroup Any) :
    fieldSetter (FormFieldGroup.fieldTable decAny) "groupType" v x
      = assign (decString v x.GroupType)
          (fun a => { x with GroupType := a }) := rfl

@[simp] theorem fieldSetter_FormFieldGroup_RichTextType {Any : Type} (decAny : JSON → Any) (v : JSON)
    (x : FormFieldGroup Any) :
    fieldSetter (FormFieldGroup.fieldTable decAny) "richTextType" v x
      = assign (decString v x.RichTextType)
          (fun a => { x with RichTextType := a }) := rfl

@[simp] theorem fieldSetter_FormFieldGroup_Fields {Any : Type} (decAny : JSON → Any) (v : JSON)
    (x : FormFieldGroup Any) :
    fieldSetter (FormFieldGroup.fieldTable decAny) "fields" v x
      = assign (decSlice (decFormField decAny) FormField.zero v x.Fields)
          (fun a => { x with Fields := a }) := rfl

@[simp] theorem fieldSetter_FormPostSubmitAction_Type_ (v : JSON)
    (x : FormPostSubmitAction) :
    fieldSetter FormPostSubmitAction.fieldTable "type" v x
      = assign (decString v x.Type_)
          (fun a => { x with Type_ := a }) := rfl

@[simp] theorem fieldSetter_FormPostSubmitAction_Value (v : JSON)
    (x : FormPostSubmitAction) :
    fieldSetter FormPostSubmitAction.fieldTable "value" v x
      = assign (decString v x.Value)
          (fun a => { x with Value := a }) := rfl

@[simp] theorem fieldSetter_FormLifecycleStage_ObjectTypeId (v : JSON)
    (x : FormLifecycleStage) :
    fieldSetter FormLifecycleStage.fieldTable "objectTypeId" v x
      = assign (decString v x.ObjectTypeId)
          (fun a => { x with ObjectTypeId := a }) := rfl

@[simp] theorem fieldSetter_FormLifecycleStage_Value (v : JSON)
    (x : FormLifecycleStage) :
    fieldSetter FormLifecycleStage.fieldTable "value" v x
      = assign (decString v x.Value)
          (fun a => { x with Value := a }) := rfl

@[simp] theorem fieldSetter_FormConfiguration_Language (v : JSON)
    (x : FormConfiguration) :
    fieldSetter FormConfiguration.fieldTable "language" v x
      = assign (decString v x.Language)
          (fun a => { x with Language := a }) := rfl

@[simp] theorem fieldSetter_FormConfiguration_Cloneable (v : JSON)
    (x : FormConfiguration) :
    fieldSetter FormConfiguration.fieldTable "cloneable" v x
      = assign (decBool v x.Cloneable)
          (fun a => { x with Cloneable := a }) := rfl

@[simp] theorem fieldSetter_FormConfiguration_PostSubmitAction (v : JSON)
    (x : FormConfiguration) :
    fieldSetter FormConfiguration.fieldTable "postSubmitAction" v x
      = assign (decFormPostSubmitAction v x.PostSubmitAction)
          (fun a => { x with PostSubmitAction := a }) := rfl

@[simp] theorem fieldSetter_FormConfiguration_Editable (v : JSON)
    (x : FormConfiguration) :
    fieldSetter FormConfiguration.fieldTable "editable" v x
      = assign (decBool v x.Editable)
          (fun a => { x with Editable := a }) := rfl

@[simp] theorem fieldSetter_FormConfiguration_Archivable (v : JSON)
    (x : FormConfiguration) :
    fieldSetter FormConfiguration.fieldTable "archivable" v x
      = assign (decBool v x.Archivable)
          (fun a => { x with Archivable := a }) := rfl

@[simp] theorem fieldSetter_FormConfiguration_RecaptchaEnabled (v : JSON)
    (x : FormConfiguration) :
    fieldSetter FormConfiguration.fieldTable "recaptchaEnabled" v x
      = assign (decBool v x.RecaptchaEnabled)
          (fun a => { x with RecaptchaEnabled := a }) := rfl

@[simp] theorem fieldSetter_FormConfiguration_NotifyContactOwner (v : JSON)
    (x : FormConfiguration) :
    fieldSetter FormConfiguration.fieldTable "notifyContactOwner" v x
      = assign (decBool v x.NotifyContactOwner)
          (fun a => { x with NotifyContactOwner := a }) := rfl

@[simp] theorem fieldSetter_FormConfiguration_NotifyRecipients (v : JSON)
    (x : FormConfiguration) :
    fieldSetter FormConfiguration.fieldTable "notifyRecipients" v x
      = assign (decSlice decString "" v x.NotifyRecipients)
          (fun a => { x with NotifyRecipients := a }) := rfl

@[simp] theorem fieldSetter_FormConfiguration_CreateNewContactForNewEmail (v : JSON)
    (x : FormConfiguration) :
    fieldSetter FormConfiguration.fieldTable "createNewContactForNewEmail" v x
      = assign (decBool v x.CreateNewContactForNewEmail)
          (fun a => { x with CreateNewContactForNewEmail := a }) := rfl

@[simp] theorem fieldSetter_FormConfiguration_PrePopulateKnownValues (v : JSON)
    (x : FormConfiguration) :
    fieldSetter FormConfiguration.fieldTable "prePopulateKnownValues" v x
      = assign (decBool v x.PrePopulateKnownValues)
          (fun a => { x with PrePopulateKnownValues := a }) := rfl

@[simp] theorem fieldSetter_FormConfiguration_AllowLinkToResetKnownValues (v : JSON)
    (x : FormConfiguration) :
    fieldSetter FormConfiguration.fieldTable "allowLinkToResetKnownValues" v x
      = assign (decBool v x.AllowLinkToResetKnownValues)
          (fun a => { x with AllowLinkToResetKnownValues := a }) := rfl

@[simp] theorem fieldSetter_FormConfiguration_LifecycleStages (v : JSON)
    (x : FormConfiguration) :
    fieldSetter FormConfiguration.fieldTable "lifecycleStages" v x
      = assign (decSlice decFormLifecycleStage FormLifecycleStage.zero v x.LifecycleStages)
          (fun a => { x with LifecycleStages := a }) := rfl

@[simp] theorem fieldSetter_FormDisplayStyle_FontFamily (v : JSON)
    (x : FormDisplayStyle) :
    fieldSetter FormDisplayStyle.fieldTable "fontFamily" v x
      = assign (decString v x.FontFamily)
          (fun a => { x with FontFamily := a }) := rfl

@[simp] theorem fieldSetter_FormDisplayStyle_BackgroundWidth (v : JSON)
    (x : FormDisplayStyle) :
    fieldSetter FormDisplayStyle.fieldTable "backgroundWidth" v x
      = assign (decString v x.BackgroundWidth)
          (fun a => { x with BackgroundWidth := a }) := rfl

@[simp] theorem fieldSetter_FormDisplayStyle_LabelTextColor (v : JSON)
    (x : FormDisplayStyle) :
    fieldSetter FormDisplayStyle.fieldTable "labelTextColor" v x
      = assign (decString v x.LabelTextColor)
          (fun a => { x with LabelTextColor := a }) := rfl

@[simp] theorem fieldSetter_FormDisplayStyle_LabelTextSize (v : JSON)
    (x : FormDisplayStyle) :
    fieldSetter FormDisplayStyle.fieldTable "labelTextSize" v x
      = assign (decString v x.LabelTextSize)
          (fun a => { x with LabelTextSize := a }) := rfl

@[simp] theorem fieldSetter_FormDisplayStyle_HelpTextColor (v : JSON)
    (x : FormDisplayStyle) :
    fieldSetter FormDisplayStyle.fieldTable "helpTextColor" v x
      = assign (decString v x.HelpTextColor)
          (fun a => { x with HelpTextColor := a }) := rfl

@[simp] theorem fieldSetter_FormDisplayStyle_HelpTextSize (v : JSON)
    (x : FormDisplayStyle) :
    fieldSetter FormDisplayStyle.fieldTable "helpTextSize" v x
      = assign (decString v x.HelpTextSize)
          (fun a => { x with HelpTextSize := a }) := rfl

@[simp] theorem fieldSetter_FormDisplayStyle_LegalConsentTextColor (v : JSON)
    (x : FormDisplayStyle) :
    fieldSetter FormDisplayStyle.fieldTable "legalConsentTextColor" v x
      = assign (decString v x.LegalConsentTextColor)
          (fun a => { x with LegalConsentTextColor := a }) := rfl

@[simp] theorem fieldSetter_FormDisplayStyle_LegalConsentTextSize (v : JSON)
    (x : FormDisplayStyle) :
    fieldSetter FormDisplayStyle.fieldTable "legalConsentTextSize" v x
      = assign (decString v x.LegalConsentTextSize)
          (fun a => { x with LegalConsentTextSize := a }) := rfl

@[simp] theorem fieldSetter_FormDisplayStyle_SubmitColor (v : JSON)
    (x : FormDisplayStyle) :
    fieldSetter FormDisplayStyle.fieldTable "submitColor" v x
      = assign (decString v x.SubmitColor)
          (fun a => { x with SubmitColor := a }) := rfl

@[simp] theorem fieldSetter_FormDisplayStyle_SubmitAlignment (v : JSON)
    (x : FormDisplayStyle) :
    fieldSetter FormDisplayStyle.fieldTable "submitAlignment" v x
      = assign (decString v x.SubmitAlignment)
          (fun a => { x with SubmitAlignment := a }) := rfl

@[simp] theorem fieldSetter_FormDisplayStyle_SubmitFontColor (v : JSON)
    (x : FormDisplayStyle) :
    fieldSetter FormDisplayStyle.fieldTable "submitFontColor" v x
      = assign (decString v x.SubmitFontColor)
          (fun a => { x with SubmitFontColor := a }) := rfl

@[simp] theorem fieldSetter_FormDisplayStyle_SubmitSize (v : JSON)
    (x : FormDisplayStyle) :
    fieldSetter FormDisplayStyle.fieldTable "submitSize" v x
      = assign (decString v x.SubmitSize)
          (fun a => { x with SubmitSize := a }) := rfl

@[simp] theorem fieldSetter_FormDisplayOptions_RenderRawHtml (v : JSON)
    (x : FormDisplayOptions) :
    fieldSetter FormDisplayOptions.fieldTable "renderRawHtml" v x
      = assign (decBool v x.RenderRawHtml)
          (fun a => { x with RenderRawHtml := a }) := rfl

@[simp] theorem fieldSetter_FormDisplayOptions_Theme (v : JSON)
    (x : FormDisplayOptions) :
    fieldSetter FormDisplayOptions.fieldTable "theme" v x
      = assign (decString v x.Theme)
          (fun a => { x with Theme := a }) := rfl

@[simp] theorem fieldSetter_FormDisplayOptions_SubmitButtonText (v : JSON)
    (x : FormDisplayOptions) :
    fieldSetter FormDisplayOptions.fieldTable "submitButtonText" v x
      = assign (decString v x.SubmitButtonText)
          (fun a => { x with SubmitButtonText := a }) := rfl

@[simp] theorem fieldSetter_FormDisplayOptions_Style (v : JSON)
    (x : FormDisplayOptions) :
    fieldSetter FormDisplayOptions.fieldTable "style" v x
      = assign (decFormDisplayStyle v x.Style)
          (fun a => { x with Style := a }) := rfl

@[simp] theorem fieldSetter_FormDisplayOptions_CSSClass (v : JSON)
    (x : FormDisplayOptions) :
    fieldSetter FormDisplayOptions.fieldTable "cssClass" v x
      = assign (decString v x.CSSClass)
          (fun a => { x with CSSClass := a }) := rfl

@[simp] theorem fieldSetter_CommunicationCheckbox_Required (v : JSON)
    (x : CommunicationCheckbox) :
    fieldSetter CommunicationCheckbox.fieldTable "required" v x
      = assign (decBool v x.Required)
          (fun a => { x with Required := a }) := rfl

@[simp] theorem fieldSetter_CommunicationCheckbox_SubscriptionTypeId (v : JSON)
    (x : CommunicationCheckbox) :
    fieldSetter CommunicationCheckbox.fieldTable "subscriptionTypeId" v x
      = assign (decInt v x.SubscriptionTypeId)
          (fun a => { x with SubscriptionTypeId := a }) := rfl

@[simp] theorem fieldSetter_CommunicationCheckbox_Label (v : JSON)
    (x : CommunicationCheckbox) :
    fieldSetter CommunicationCheckbox.fieldTable "label" v x
      = assign (decString v x.Label)
          (fun a => { x with Label := a }) := rfl

@[simp] theorem fieldSetter_LegalConsentOptions_Type_ (v : JSON)
    (x : LegalConsentOptions) :
    fieldSetter LegalConsentOptions.fieldTable "type" v x
      = assign (decString v x.Type_)
          (fun a => { x with Type_ := a }) := rfl

@[simp] theorem fieldSetter_LegalConsentOptions_CommunicationConsentText (v : JSON)
    (x : LegalConsentOptions) :
    fieldSetter LegalConsentOptions.fieldTable "communicationConsentText" v x
      = assign (decString v x.CommunicationConsentText)
          (fun a => { x with CommunicationConsentText := a }) := rfl

@[simp] theorem fieldSetter_LegalConsentOptions_CommunicationsCheckboxes (v : JSON)
    (x : LegalConsentOptions) :
    fieldSetter LegalConsentOptions.fieldTable "communicationsCheckboxes" v x
      = assign (decSlice decCommunicationCheckbox CommunicationCheckbox.zero v x.CommunicationsCheckboxes)
          (fun a => { x with CommunicationsCheckboxes := a }) := rfl

@[simp] theorem fieldSetter_LegalConsentOptions_ConsentToProcessText (v : JSON)
    (x : LegalConsentOptions) :
    fieldSetter LegalConsentOptions.fieldTable "consentToProcessText" v x
      = assign (decString v x.ConsentToProcessText)
          (fun a => { x with ConsentToProcessText := a }) := rfl

@[simp] theorem fieldSetter_LegalConsentOptions_ConsentToProcessCheckboxLabel (v : JSON)
    (x : LegalConsentOptions) :
    fieldSetter LegalConsentOptions.fieldTable "consentToProcessCheckboxLabel" v x
      = assign (decString v x.ConsentToProcessCheckboxLabel)
          (fun a => { x with ConsentToProcessCheckboxLabel := a }) := rfl

@[simp] theorem fieldSetter_LegalConsentOptions_PrivacyText (v : JSON)
    (x : LegalConsentOptions) :
    fieldSetter LegalConsentOptions.fieldTable "privacyText" v x
      = assign (decString v x.PrivacyText)
          (fun a => { x with PrivacyText := a }) := rfl

@[simp] theorem fieldSetter_LegalConsentOptions_Consent (v : JSON)
    (x : LegalConsentOptions) :
    fieldSetter LegalConsentOptions.fieldTable "consent" v x
      = assign (decString v x.Consent)
          (fun a => { x with Consent := a }) := rfl

@[simp] theorem fieldSetter_LegalConsentOptions_ConsentToProcess (v : JSON)
    (x : LegalConsentOptions) :
    fieldSetter LegalConsentOptions.fieldTable "consentToProcess" v x
      = assign (decBool v x.ConsentToProcess)
          (fun a => { x with ConsentToProcess := a }) := rfl

@[simp] theorem fieldSetter_LegalConsentOptions_Text (v : JSON)
    (x : LegalConsentOptions) :
    fieldSetter LegalConsentOptions.fieldTable "text" v x
      = assign (decString v x.Text)
          (fun a => { x with Text := a }) := rfl

@[simp] theorem fieldSetter_LegalConsentOptions_Communications (v : JSON)
    (x : LegalConsentOptions) :
    fieldSetter LegalConsentOptions.fieldTable "communications" v x
      = assign (decSlice decString "" v x.Communications)
          (fun a => { x with Communications := a }) := rfl

@[simp] theorem fieldSetter_Form_ID {Any : Type} (decAny : JSON → Any) (v : JSON)
    (x : Form Any) :
    fieldSetter (Form.fieldTable decAny) "id" v x
      = assign (decString v x.ID)
          (fun a => { x with ID := a }) := rfl

@[simp] theorem fieldSetter_Form_Name {Any : Type} (decAny : JSON → Any) (v : JSON)
    (x : Form Any) :
    fieldSetter (Form.fieldTable decAny) "name" v x
      = assign (decString v x.Name)
          (fun a => { x with Name := a }) := rfl

@[simp] theorem fieldSetter_Form_CreatedAt {Any : Type} (decAny : JSON → Any) (v : JSON)
    (x : Form Any) :
    fieldSetter (Form.fieldTable decAny) "createdAt" v x
      = assign (decString v x.CreatedAt)
          (fun a => { x with CreatedAt := a }) := rfl

@[simp] theorem fieldSetter_Form_UpdatedAt {Any : Type} (decAny : JSON → Any) (v : JSON)
    (x : Form Any) :
    fieldSetter (Form.fieldTable decAny) "updatedAt" v x
      = assign (decString v x.UpdatedAt)
          (fun a => { x with UpdatedAt := a }) := rfl

@[simp] theorem fieldSetter_Form_Archived {Any : Type} (decAny : JSON → Any) (v : JSON)
    (x : Form Any) :
    fieldSetter (Form.fieldTable decAny) "archived" v x
      = assign (decBool v x.Archived)
          (fun a => { x with Archived := a }) := rfl

@[simp] theorem fieldSetter_Form_FieldGroups {Any : Type} (decAny : JSON → Any) (v : JSON)
    (x : Form Any) :
    fieldSetter (Form.fieldTable decAny) "fieldGroups" v x
      = assign (decSlice (decFormFieldGroup decAny) FormFieldGroup.zero v x.FieldGroups)
          (fun a => { x with FieldGroups := a }) := rfl

@[simp] theorem fieldSetter_Form_Configuration {Any : Type} (decAny : JSON → Any) (v : JSON)
    (x : Form Any) :
    fieldSetter (Form.fieldTable decAny) "configuration" v x
      = assign (decFormConfiguration v x.Configuration)
          (fun a => { x with Configuration := a }) := rfl

@[simp] theorem fieldSetter_Form_DisplayOptions {Any : Type} (decAny : JSON → Any) (v : JSON)
    (x : Form Any) :
    fieldSetter (Form.fieldTable decAny) "displayOptions" v x
      = assign (decFormDisplayOptions v x.DisplayOptions)
          (fun a => { x with DisplayOptions := a }) := rfl

@[simp] theorem fieldSetter_Form_LegalConsentOptions {Any : Type} (decAny : JSON → Any) (v : JSON)
    (x : Form Any) :
    fieldSetter (Form.fieldTable decAny) "legalConsentOptions" v x
      = assign (decPtr decLegalConsentOptions LegalConsentOptions.zero v x.LegalConsentOptions)
          (fun a => { x with LegalConsentOptions := a }) := rfl

@[simp] theorem fieldSetter_Form_FormType {Any : Type} (decAny : JSON → Any) (v : JSON)
    (x : Form Any) :
    fieldSetter (Form.fieldTable decAny) "formType" v x
      = assign (decString v x.FormType)
          (fun a => { x with FormType := a }) := rfl

@[simp] theorem fieldSetter_Form_Action {Any : Type} (decAny : JSON → Any) (v : JSON)
    (x : Form Any) :
    fieldSetter (Form.fieldTable decAny) "action" v x
      = assign (decString v x.Action)
          (fun a => { x with Action := a }) := rfl

@[simp] theorem fieldSetter_Form_Method {Any : Type} (decAny : JSON → Any) (v : JSON)
    (x : Form Any) :
    fieldSetter (Form.fieldTable decAny) "method" v x
      = assign (decString v x.Method)
          (fun a => { x with Method := a }) := rfl

@[simp] theorem fieldSetter_Form_RedirectURL {Any : Type} (decAny : JSON → Any) (v : JSON)
    (x : Form Any) :
    fieldSetter (Form.fieldTable decAny) "redirectUrl" v x
      = assign (decString v x.RedirectURL)
          (fun a => { x with RedirectURL := a }) := rfl

@[simp] theorem fieldSetter_Form_Properties {Any : Type} (decAny : JSON → Any) (v : JSON)
    (x : Form Any) :
    fieldSetter (Form.fieldTable decAny) "properties" v x
      = assign (decMap decAny v x.Properties)
          (fun a => { x with Properties := a }) := rfl

@[simp] theorem fieldSetter_PagingNext_After (v : JSON)
    (x : PagingNext) :
    fieldSetter PagingNext.fieldTable "after" v x
      = assign (decString v x.After)
          (fun a => { x with After := a }) := rfl

@[simp] theorem fieldSetter_Paging_Next (v : JSON)
    (x : Paging) :
    fieldSetter Paging.fieldTable "next" v x
      = assign (decPagingNext v x.Next)
          (fun a => { x with Next := a }) := rfl

@[simp] theorem fieldSetter_FormResponse_Results {Any : Type} (decAny : JSON → Any) (v : JSON)
    (x : FormResponse Any) :
    fieldSetter (FormResponse.fieldTable decAny) "results" v x
      = assign (decSlice (decForm decAny) Form.zero v x.Results)
          (fun a => { x with Results := a }) := rfl

@[simp] theorem fieldSetter_FormResponse_Paging {Any : Type} (decAny : JSON → Any) (v : JSON)
    (x : FormResponse Any) :
    fieldSetter (FormResponse.fieldTable decAny) "paging" v x
      = assign (decPaging v x.Paging)
          (fun a => { x with Paging := a }) := rfl

theorem ite_FormFieldValidation (c : Prop) [Decidable c]
    (a0 b0 : Slice String) (a1 b1 : Bool) :
    (if c then (FormFieldValidation.mk a0 a1 : FormFieldValidation)
      else FormFieldValidation.mk b0 b1)
      = FormFieldValidation.mk (if c then a0 else b0) (if c then a1 else b1) := by
  split <;> rfl

theorem ite_FormField {Any : Type} (c : Prop) [Decidable c]
    (a0 b0 : String) (a1 b1 : String) (a2 b2 : String) (a3 b3 : Bool) (a4 b4 : Bool)
    (a5 b5 : String) (a6 b6 : Option FormFieldValidation) (a7 b7 : String) (a8 b8 : String)
    (a9 b9 : Slice FormFieldOption) (a10 b10 : GoMap Any) (a11 b11 : Slice String) :
    (if c then (FormField.mk a0 a1 a2 a3 a4 a5 a6 a7 a8 a9 a10 a11 : FormField Any)
      else FormField.mk b0 b1 b2 b3 b4 b5 b6 b7 b8 b9 b10 b11)
      = FormField.mk (if c then a0 else b0) (if c then a1 else b1) (if c then a2 else b2)
          (if c then a3 else b3) (if c then a4 else b4) (if c then a5 else b5)
          (if c then a6 else b6) (if c then a7 else b7) (if c then a8 else b8)
          (if c then a9 else b9) (if c then a10 else b10) (if c then a11 else b11) := by
  split <;> rfl

theorem ite_LegalConsentOptions (c : Prop) [Decidable c]
    (a0 b0 : String) (a1 b1 : String) (a2 b2 : Slice CommunicationCheckbox) (a3 b3 : String)
    (a4 b4 : String) (a5 b5 : String) (a6 b6 : String) (a7 b7 : Bool) (a8 b8 : String)
    (a9 b9 : Slice String) :
    (if c then (LegalConsentOptions.mk a0 a1 a2 a3 a4 a5 a6 a7 a8 a9 : LegalConsentOptions)
      else LegalConsentOptions.mk b0 b1 b2 b3 b4 b5 b6 b7 b8 b9)
      = LegalConsentOptions.mk (if c then a0 else b0) (if c then a1 else b1)
          (if c then a2 else b2) (if c then a3 else b3) (if c then a4 else b4)
          (if c then a5 else b5) (if c then a6 else b6) (if c then a7 else b7)
          (if c then a8 else b8) (if c then a9 else b9) := by
  split <;> rfl

theorem ite_Form {Any : Type} (c : Prop) [Decidable c]
    (a0 b0 : String) (a1 b1 : String) (a2 b2 : String) (a3 b3 : String) (a4 b4 : Bool)
    (a5 b5 : Slice (FormFieldGroup Any)) (a6 b6 : FormConfiguration)
    (a7 b7 : FormDisplayOptions) (a8 b8 : Option LegalConsentOptions) (a9 b9 : String)
    (a10 b10 : String) (a11 b11 : String) (a12 b12 : String) (a13 b13 : GoMap Any) :
    (if c then (Form.mk a0 a1 a2 a3 a4 a5 a6 a7 a8 a9 a10 a11 a12 a13 : Form Any)
      else Form.mk b0 b1 b2 b3 b4 b5 b6 b7 b8 b9 b10 b11 b12 b13)
      = Form.mk (if c then a0 else b0) (if c then a1 else b1) (if c then a2 else b2)
          (if c then a3 else b3) (if c then a4 else b4) (if c then a5 else b5)
          (if c then a6 else b6) (if c then a7 else b7) (if c then a8 else b8)
          (if c then a9 else b9) (if c then a10 else b10) (if c then a11 else b11)
          (if c then a12 else b12) (if c then a13 else b13) := by
  split <;> rfl

end MatchFieldLemmas

section StructRoundTrips

variable {Any : Type}

@[simp] theorem decFormFieldOption_enc (x : FormFieldOption) :
    decFormFieldOption (encFormFieldOption x) FormFieldOption.zero = (x, none) := by
  cases x
  simp [decFormFieldOption, encFormFieldOption, decStruct, List.foldl_append, foldl_field,
    assign, decString, firstErr, FormFieldOption.zero]

@[simp] theorem decFormPostSubmitAction_enc (x : FormPostSubmitAction) :
    decFormPostSubmitAction (encFormPostSubmitAction x) FormPostSubmitAction.zero
      = (x, none) := by
  cases x
  simp [decFormPostSubmitAction, encFormPostSubmitAction, decStruct, List.foldl_append,
    foldl_field, assign, decString, firstErr,
    FormPostSubmitAction.zero]

@[simp] theorem decFormLifecycleStage_enc (x : FormLifecycleStage) :
    decFormLifecycleStage (encFormLifecycleStage x) FormLifecycleStage.zero = (x, none) := by
  cases x
  simp [decFormLifecycleStage, encFormLifecycleStage, decStruct, List.foldl_append,
    foldl_field, assign, decString, firstErr,
    FormLifecycleStage.zero]

@[simp] theorem decFormDisplayStyle_enc (x : FormDisplayStyle) :
    decFormDisplayStyle (encFormDisplayStyle x) FormDisplayStyle.zero = (x, none) := by
  cases x
  simp [decFormDisplayStyle, encFormDisplayStyle, decStruct, List.foldl_append, foldl_field,
    assign, decString, firstErr, FormDisplayStyle.zero]

@[simp] theorem decFormDisplayOptions_enc (x : FormDisplayOptions) :
    decFormDisplayOptions (encFormDisplayOptions x) FormDisplayOptions.zero = (x, none) := by
  cases x
  simp [decFormDisplayOptions, encFormDisplayOptions, decStruct, List.foldl_append,
    foldl_field, assign, decString, decBool, firstErr,
    FormDisplayOptions.zero]

@[simp] theorem decSlice_FormLifecycleStage (o : Slice FormLifecycleStage) :
    decSlice decFormLifecycleStage FormLifecycleStage.zero
      (encSlice encFormLifecycleStage o) none = (o, none) :=
  decSlice_encSlice_id _ _ _ o (fun _ _ x _ => decFormLifecycleStage_enc x)

@[simp] theorem decFormConfiguration_enc (x : FormConfiguration) :
    decFormConfiguration (encFormConfiguration x) FormConfiguration.zero = (x, none) := by
  cases x
  simp [decFormConfiguration, encFormConfiguration, decStruct, List.foldl_append, foldl_field,
    assign, decString, decBool, firstErr, FormConfiguration.zero]

@[simp] theorem decFormFieldValidation_enc (x : FormFieldValidation) :
    decFormFieldValidation (encFormFieldValidation x) FormFieldValidation.zero
      = (normFormFieldValidation x, none) := by
  cases x
  simp [decFormFieldValidation, encFormFieldValidation, decStruct, List.foldl_append,
    foldl_field, foldl_fieldOmitEmpty, assign, decBool, firstErr,
    FormFieldValidation.zero, ite_pair, ite_FormFieldValidation, emptyBool, ite_emptyLen,
    normFormFieldValidation]

@[simp] theorem decSlice_FormFieldOption (o : Slice FormFieldOption) :
    decSlice decFormFieldOption FormFieldOption.zero (encSlice encFormFieldOption o) none
      = (o, none) :=
  decSlice_encSlice_id _ _ _ o (fun _ _ x _ => decFormFieldOption_enc x)

@[simp] theorem decPtr_FormFieldValidation (o : Option FormFieldValidation) :
    decPtr decFormFieldValidation FormFieldValidation.zero
      (encPtr encFormFieldValidation o) none = (o.map normFormFieldValidation, none) :=
  decPtr_encPtr _ _ _ _ o (fun _ => rfl) (fun x _ => decFormFieldValidation_enc x)

theorem decCommunicationCheckbox_enc (x : CommunicationCheckbox)
    (h : IntInRange x.SubscriptionTypeId) :
    decCommunicationCheckbox (encCommunicationCheckbox x) CommunicationCheckbox.zero
      = (x, none) := by
  obtain ⟨r, n, l⟩ := x
  have h1 : -9223372036854775808 ≤ n ∧ n < 9223372036854775808 := by
    simpa [IntInRange] using h
  simp [decCommunicationCheckbox, encCommunicationCheckbox, decStruct, List.foldl_append,
    foldl_field, assign, decString, decBool, decInt, firstErr,
    CommunicationCheckbox.zero, h1]

theorem decLegalConsentOptions_enc (x : LegalConsentOptions) (h : x.Valid) :
    decLegalConsentOptions (encLegalConsentOptions x) LegalConsentOptions.zero
      = (normLegalConsentOptions x, none) := by
  obtain ⟨a0, a1, a2, a3, a4, a5, a6, a7, a8, a9⟩ := x
  have h2 : decSlice decCommunicationCheckbox CommunicationCheckbox.zero
      (encSlice encCommunicationCheckbox a2) none = (a2, none) :=
    decSlice_encSlice_id _ _ _ a2 (fun l hl c hc => decCommunicationCheckbox_enc c (h l hl c hc))
  simp [decLegalConsentOptions, encLegalConsentOptions, decStruct, List.foldl_append,
    foldl_field, foldl_fieldOmitEmpty, assign, decString,
    decBool, firstErr, LegalConsentOptions.zero, h2, ite_pair, ite_LegalConsentOptions,
    emptyBool, ite_emptyString, ite_emptyLen, normLegalConsentOptions]

theorem decFormField_enc (encAny : Any → JSON) (decAny : JSON → Any) (x : FormField Any)
    (h : GoMap.ReadsBack encAny decAny x.Properties) :
    decFormField decAny (encFormField encAny x) FormField.zero = (normFormField x, none) := by
  obtain ⟨a0, a1, a2, a3, a4, a5, a6, a7, a8, a9, a10, a11⟩ := x
  have h10 : decMap decAny (encMap encAny a10) none = (a10, none) :=
    decMap_encMap encAny decAny a10 h
  simp [decFormField, encFormField, decStruct, List.foldl_append, foldl_field,
    foldl_fieldOmitEmpty, assign, decString, decBool, firstErr,
    FormField.zero, h10, ite_pair, ite_FormField, ite_emptyString, ite_emptyLen,
    ite_emptyPtr_map, normFormField]

theorem decFormFieldGroup_enc (encAny : Any → JSON) (decAny : JSON → Any)
    (x : FormFieldGroup Any)
    (h : ∀ fs, x.Fields = some fs → ∀ fld ∈ fs, GoMap.ReadsBack encAny decAny fld.Properties) :
    decFormFieldGroup decAny (encFormFieldGroup encAny x) FormFieldGroup.zero
      = (normFormFieldGroup x, none) := by
  obtain ⟨a0, a1, a2⟩ := x
  have h2 : decSlice (decFormField decAny) FormField.zero
      (encSlice (encFormField encAny) a2) none = (a2.map (List.map normFormField), none) :=
    decSlice_encSlice _ _ _ _ a2 (fun l hl f hf => decFormField_enc encAny decAny f (h l hl f hf))
  simp [decFormFieldGroup, encFormFieldGroup, decStruct, List.foldl_append, foldl_field,
    assign, decString, firstErr, FormFieldGroup.zero, h2,
    normFormFieldGroup]

theorem decForm_enc (encAny : Any → JSON) (decAny : JSON → Any) (x : Form Any)
    (hg : ∀ gs, x.FieldGroups = some gs → ∀ g ∈ gs, ∀ fs, g.Fields = some fs →
      ∀ fld ∈ fs, GoMap.ReadsBack encAny decAny fld.Properties)
    (hl : ∀ l, x.LegalConsentOptions = some l → l.Valid) :
    decForm decAny (encForm encAny x) Form.zero
      = ({ normForm x with
           Properties := if emptyLen x.Properties = true then none
                         else (decMap decAny (encMap encAny x.Properties) none).1 }, none) := by
  obtain ⟨a0, a1, a2, a3, a4, a5, a6, a7, a8, a9, a10, a11, a12, a13⟩ := x
  have h5 : decSlice (decFormFieldGroup decAny) FormFieldGroup.zero
      (encSlice (encFormFieldGroup encAny) a5) none
        = (a5.map (List.map normFormFieldGroup), none) :=
    decSlice_encSlice _ _ _ _ a5
      (fun l hl g hg1 => decFormFieldGroup_enc encAny decAny g (hg l hl g hg1))
  have h8 : decPtr decLegalConsentOptions LegalConsentOptions.zero
      (encPtr encLegalConsentOptions a8) none = (a8.map normLegalConsentOptions, none) :=
    decPtr_encPtr _ _ _ _ a8 (fun _ => rfl) (fun l hl1 => decLegalConsentOptions_enc l (hl l hl1))
  simp [decForm, encForm, decStruct, List.foldl_append, foldl_field, foldl_fieldOmitEmpty,
    assign, decString, decBool, firstErr, Form.zero, h5, h8, decMap_encMap_err, ite_pair,
    ite_Form, emptyBool, ite_emptyString, ite_emptyPtr_map, normForm]

end StructRoundTrips

section RoundTripTheorems

variable {Any : Type}

theorem nilIfEmpty_of_ne {α : Type} (o : Option (List α)) (h : o ≠ some []) :
    nilIfEmpty o = o := by
  cases o with
  | none => rfl
  | some l =>
    cases l with
    | nil => exact absurd rfl h
    | cons a as => rfl

theorem normFormField_of_noEmpty (x : FormField Any) (h : FormField.NoEmptyNonNil x) :
    normFormField x = x := by
  obtain ⟨a0, a1, a2, a3, a4, a5, a6, a7, a8, a9, a10, a11⟩ := x
  obtain ⟨h1, h2, h3, h4⟩ := h
  simp only at h1 h2 h3 h4
  simp only [normFormField, nilIfEmpty_of_ne _ h1, nilIfEmpty_of_ne _ h2,
    nilIfEmpty_of_ne _ h3, FormField.mk.injEq, true_and, and_true]
  cases a6 with
  | none => rfl
  | some v =>
    obtain ⟨b, u⟩ := v
    have hb := h4 _ rfl
    simp only at hb
    simp [normFormFieldValidation, nilIfEmpty_of_ne _ hb]

theorem normFormFieldGroups_of_noEmpty (groups : Slice (FormFieldGroup Any))
    (h : NoEmptyNonNil groups) : groups.map (List.map normFormFieldGroup) = groups := by
  cases groups with
  | none => rfl
  | some gs =>
    simp only [Option.map_some', Option.some.injEq]
    conv_rhs => rw [← List.map_id gs]
    apply List.map_congr_left
    intro g hg
    obtain ⟨t, r, fs⟩ := g
    simp only [normFormFieldGroup, id, FormFieldGroup.mk.injEq, true_and]
    cases fs with
    | none => rfl
    | some l =>
      simp only [Option.map_some', Option.some.injEq]
      conv_rhs => rw [← List.map_id l]
      apply List.map_congr_left
      intro fld hfld
      exact normFormField_of_noEmpty fld (h gs rfl _ hg l rfl fld hfld)

theorem written_of_ok (marshalAny : Any → Except MarshalError JSON) (v : Any) (j : JSON)
    (h : marshalAny v = .ok j) : written marshalAny v = j := by
  simp [written, h]

theorem marshalEntries_ok (marshalAny : Any → Except MarshalError JSON)
    (l : List (String × Any)) (h : ∀ kv ∈ l, ∃ j, marshalAny kv.2 = .ok j) :
    marshalEntries marshalAny l
      = .ok (l.map (fun kv => (kv.1, written marshalAny kv.2))) := by
  induction l with
  | nil => rfl
  | cons kv rest ih =>
    obtain ⟨j, hj⟩ := h kv (List.mem_cons_self _ _)
    simp only [marshalEntries, hj, ih (fun kv1 h1 => h kv1 (List.mem_cons_of_mem _ h1)),
      List.map_cons, written_of_ok marshalAny kv.2 j hj]

theorem marshalMap_ok (marshalAny : Any → Except MarshalError JSON) (m : GoMap Any)
    (h : GoMap.Supported marshalAny m) :
    marshalMap marshalAny m = .ok (encMap (written marshalAny) m) := by
  cases m with
  | none => rfl
  | some l => simp only [marshalMap, marshalEntries_ok marshalAny l (h l rfl), encMap]

theorem marshalElems_ok {α : Type} (m : α → Except MarshalError JSON) (enc : α → JSON)
    (l : List α) (h : ∀ x ∈ l, m x = .ok (enc x)) :
    marshalElems m l = .ok (l.map enc) := by
  induction l with
  | nil => rfl
  | cons x rest ih =>
    simp only [marshalElems, h x (List.mem_cons_self _ _),
      ih (fun y hy => h y (List.mem_cons_of_mem _ hy)), List.map_cons]

theorem marshalSlice_ok {α : Type} (m : α → Except MarshalError JSON) (enc : α → JSON)
    (o : Slice α) (h : ∀ l, o = some l → ∀ x ∈ l, m x = .ok (enc x)) :
    marshalSlice m o = .ok (encSlice enc o) := by
  cases o with
  | none => rfl
  | some l => simp only [marshalSlice, marshalElems_ok m enc l (h l rfl), encSlice]

theorem marshalFormField_ok (marshalAny : Any → Except MarshalError JSON) (x : FormField Any)
    (h : GoMap.Supported marshalAny x.Properties) :
    marshalFormField marshalAny x = .ok (encFormField (written marshalAny) x) := by
  simp only [marshalFormField, marshalMap_ok marshalAny _ h, encFormField]

theorem marshalFormFieldGroup_ok (marshalAny : Any → Except MarshalError JSON)
    (x : FormFieldGroup Any)
    (h : ∀ fs, x.Fields = some fs → ∀ fld ∈ fs, GoMap.Supported marshalAny fld.Properties) :
    marshalFormFieldGroup marshalAny x
      = .ok (encFormFieldGroup (written marshalAny) x) := by
  have hf := marshalSlice_ok (marshalFormField marshalAny)
    (encFormField (written marshalAny)) x.Fields
    (fun l hl fld hfld => marshalFormField_ok marshalAny fld (h l hl fld hfld))
  simp only [marshalFormFieldGroup, hf, encFormFieldGroup]

theorem marshalForm_ok (marshalAny : Any → Except MarshalError JSON) (x : Form Any)
    (hg : ∀ gs, x.FieldGroups = some gs → ∀ g ∈ gs, ∀ fs, g.Fields = some fs →
      ∀ fld ∈ fs, GoMap.Supported marshalAny fld.Properties)
    (hp : GoMap.Supported marshalAny x.Properties) :
    marshalForm marshalAny x = .ok (encForm (written marshalAny) x) := by
  have hgs := marshalSlice_ok (marshalFormFieldGroup marshalAny)
    (encFormFieldGroup (written marshalAny)) x.FieldGroups
    (fun l hl g hg1 => marshalFormFieldGroup_ok marshalAny g (hg l hl g hg1))
  simp only [marshalForm, hgs, marshalMap_ok marshalAny _ hp, encForm]

theorem marshalEntries_eq (marshalAny : Any → Except MarshalError JSON)
    (l : List (String × Any)) (ms : List (String × JSON))
    (h : marshalEntries marshalAny l = .ok ms) :
    ms = l.map (fun kv => (kv.1, written marshalAny kv.2)) := by
  induction l generalizing ms with
  | nil =>
    simp only [marshalEntries, Except.ok.injEq] at h
    simp [← h]
  | cons kv rest ih =>
    simp only [marshalEntries] at h
    cases hv : marshalAny kv.2 with
    | error e => simp [hv] at h
    | ok j =>
      cases hr : marshalEntries marshalAny rest with
      | error e => simp [hv, hr] at h
      | ok js =>
        simp only [hv, hr, Except.ok.injEq] at h
        rw [← h, List.map_cons, written_of_ok marshalAny kv.2 j hv, ← ih js hr]

theorem marshalMap_eq (marshalAny : Any → Except MarshalError JSON) (m : GoMap Any) (j : JSON)
    (h : marshalMap marshalAny m = .ok j) : j = encMap (written marshalAny) m := by
  cases m with
  | none =>
    simp only [marshalMap, Except.ok.injEq] at h
    simp [← h, encMap]
  | some l =>
    simp only [marshalMap] at h
    cases hr : marshalEntries marshalAny l with
    | error e => simp [hr] at h
    | ok ms =>
      simp only [hr, Except.ok.injEq] at h
      rw [← h, marshalEntries_eq marshalAny l ms hr]
      rfl

theorem marshalElems_eq {α : Type} (m : α → Except MarshalError JSON) (enc : α → JSON)
    (l : List α) (js : List JSON) (hm : ∀ x j, m x = .ok j → j = enc x)
    (h : marshalElems m l = .ok js) : js = l.map enc := by
  induction l generalizing js with
  | nil =>
    simp only [marshalElems, Except.ok.injEq] at h
    simp [← h]
  | cons x rest ih =>
    simp only [marshalElems] at h
    cases hv : m x with
    | error e => simp [hv] at h
    | ok j =>
      cases hr : marshalElems m rest with
      | error e => simp [hv, hr] at h
      | ok js1 =>
        simp only [hv, hr, Except.ok.injEq] at h
        rw [← h, List.map_cons, ← hm x j hv, ← ih js1 hr]

theorem marshalSlice_eq {α : Type} (m : α → Except MarshalError JSON) (enc : α → JSON)
    (o : Slice α) (j : JSON) (hm : ∀ x j, m x = .ok j → j = enc x)
    (h : marshalSlice m o = .ok j) : j = encSlice enc o := by
  cases o with
  | none =>
    simp only [marshalSlice, Except.ok.injEq] at h
    simp [← h, encSlice]
  | some l =>
    simp only [marshalSlice] at h
    cases hr : marshalElems m l with
    | error e => simp [hr] at h
    | ok js =>
      simp only [hr, Except.ok.injEq] at h
      rw [← h, marshalElems_eq m enc l js hm hr]
      rfl

theorem marshalFormField_eq (marshalAny : Any → Except MarshalError JSON) (x : FormField Any)
    (j : JSON) (h : marshalFormField marshalAny x = .ok j) :
    j = encFormField (written marshalAny) x := by
  simp only [marshalFormField] at h
  cases hp : marshalMap marshalAny x.Properties with
  | error e => simp [hp] at h
  | ok p =>
    simp only [hp, Except.ok.injEq] at h
    rw [← h, marshalMap_eq marshalAny _ p hp]
    rfl

theorem marshalFormFieldGroup_eq (marshalAny : Any → Except MarshalError JSON)
    (x : FormFieldGroup Any) (j : JSON) (h : marshalFormFieldGroup marshalAny x = .ok j) :
    j = encFormFieldGroup (written marshalAny) x := by
  simp only [marshalFormFieldGroup] at h
  cases hf : marshalSlice (marshalFormField marshalAny) x.Fields with
  | error e => simp [hf] at h
  | ok fs =>
    simp only [hf, Except.ok.injEq] at h
    rw [← h, marshalSlice_eq _ (encFormField (written marshalAny)) _ fs
      (marshalFormField_eq marshalAny) hf]
    rfl

/-- What Marshal writes for a form, when it succeeds, is the encoding `encForm`. -/
theorem marshalForm_eq (marshalAny : Any → Except MarshalError JSON) (x : Form Any)
    (j : JSON) (h : marshalForm marshalAny x = .ok j) :
    j = encForm (written marshalAny) x := by
  simp only [marshalForm] at h
  cases hg : marshalSlice (marshalFormFieldGroup marshalAny) x.FieldGroups with
  | error e => simp [hg] at h
  | ok gs =>
    cases hp : marshalMap marshalAny x.Properties with
    | error e => simp [hg, hp] at h
    | ok p =>
      simp only [hg, hp, Except.ok.injEq] at h
      rw [← h, marshalSlice_eq _ (encFormFieldGroup (written marshalAny)) _ gs
        (marshalFormFieldGroup_eq marshalAny) hg, marshalMap_eq marshalAny _ p hp]
      rfl

theorem GoMap.Valid.supported (marshalAny : Any → Except MarshalError JSON)
    (decAny : JSON → Any) (m : GoMap Any) (h : GoMap.Valid marshalAny decAny m) :
    GoMap.Supported marshalAny m := by
  intro l hl kv hkv
  obtain ⟨j, hj, _⟩ := (h l hl).2 kv hkv
  exact ⟨j, hj⟩

theorem GoMap.Valid.readsBack (marshalAny : Any → Except MarshalError JSON)
    (decAny : JSON → Any) (m : GoMap Any) (h : GoMap.Valid marshalAny decAny m) :
    GoMap.ReadsBack (written marshalAny) decAny m := by
  intro l hl
  refine ⟨(h l hl).1, ?_⟩
  intro kv hkv
  obtain ⟨j, hj, hd⟩ := (h l hl).2 kv hkv
  rw [written_of_ok marshalAny kv.2 j hj, hd]

theorem roundTripForm_of_valid (marshalAny : Any → Except MarshalError JSON)
    (decAny : JSON → Any) (f : Form Any) (h : Form.Valid marshalAny decAny f) :
    roundTripForm marshalAny decAny f
      = .ok ({ normForm f with
               Properties := if emptyLen f.Properties = true then none
                 else (decMap decAny (encMap (written marshalAny) f.Properties) none).1 },
             none) := by
  obtain ⟨hg, hl, hp⟩ := h
  have hm := marshalForm_ok marshalAny f
    (fun gs hgs g hg1 fs hfs fld hfld =>
      GoMap.Valid.supported marshalAny decAny _ (hg gs hgs g hg1 fs hfs fld hfld)) hp
  have hd := decForm_enc (written marshalAny) decAny f
    (fun gs hgs g hg1 fs hfs fld hfld =>
      GoMap.Valid.readsBack marshalAny decAny _ (hg gs hgs g hg1 fs hfs fld hfld)) hl
  simp only [roundTripForm, hm, hd]

theorem exampleForm_valid :
    Form.Valid (fun _ : Unit => Except.ok JSON.null) (fun _ => ()) exampleForm := by
  refine ⟨?_, ?_, ?_⟩
  · intro gs hgs g hg fs hfs fld hfld
    simp only [exampleForm, Option.some.injEq] at hgs
    subst hgs
    simp only [List.mem_singleton] at hg
    subst hg
    simp only [Option.some.injEq] at hfs
    subst hfs
    simp only [List.mem_singleton] at hfld
    subst hfld
    intro l hl
    simp [exampleField] at hl
  · intro l hl
    simp [exampleForm] at hl
  · intro l hl
    simp [exampleForm] at hl

/-- Marshal fails on a form that holds an unsupported value, and the round trip ends
with that error. -/
theorem roundTripForm_unsupported :
    roundTripForm marshalBool (fun _ => true) exampleFormNaN = .error .unsupported := by
  rfl

/-- C7, where the claim fails: the form `exampleForm` has one field whose `Options` is
the empty, non-nil slice; Marshal writes it without an `options` member and Unmarshal
leaves `Options` nil, so `FieldGroups` does not come back equal. -/
theorem C7_counterexample :
    ∃ g, roundTripForm (fun _ : Unit => Except.ok JSON.null) (fun _ => ()) exampleForm
        = .ok (g, none) ∧
      g.FieldGroups = exampleFormNil.FieldGroups ∧
      g.FieldGroups ≠ exampleForm.FieldGroups := by
  refine ⟨_, roundTripForm_of_valid _ _ exampleForm exampleForm_valid, ?_, ?_⟩
  · decide
  · decide

/-- C7, as the code has it. Take a Form in which Marshal supports every value held in
a `Properties` map, every value held in the `Properties` of a field is decoded back
from what Marshal writes for it, and the `int` fields are in range. Then Marshal
succeeds, decoding what it wrote into a new Form reports no error and gives back Name,
Configuration and DisplayOptions as they were, and FieldGroups with the same groups and
fields in the same order, each equal to the original except that an omit-when-empty
slice or map of a field (Options, Properties, DependentFields,
Validation.BlockedEmailDomains) that was empty and non-nil is nil; without such a slice
or map FieldGroups is as it was. -/
theorem C7_form_round_trip (marshalAny : Any → Except MarshalError JSON)
    (decAny : JSON → Any) (f : Form Any) (h : Form.Valid marshalAny decAny f) :
    ∃ g, roundTripForm marshalAny decAny f = .ok (g, none) ∧
      g.Name = f.Name ∧
      g.Configuration = f.Configuration ∧
      g.DisplayOptions = f.DisplayOptions ∧
      g.FieldGroups = f.FieldGroups.map (List.map normFormFieldGroup) ∧
      g.FieldGroups.map List.length = f.FieldGroups.map List.length ∧
      g.FieldGroups.map (List.map (fun g => g.Fields.map List.length))
        = f.FieldGroups.map (List.map (fun g => g.Fields.map List.length)) ∧
      (NoEmptyNonNil f.FieldGroups → g.FieldGroups = f.FieldGroups) := by
  refine ⟨_, roundTripForm_of_valid marshalAny decAny f h, rfl, rfl, rfl, rfl, ?_, ?_, ?_⟩
  · simp [normForm, Option.map_map, Function.comp_def]
  · simp only [normForm, Option.map_map]
    congr 1
    funext gs
    simp only [Function.comp_apply, List.map_map]
    apply List.map_congr_left
    intro g _
    simp [normFormFieldGroup, Option.map_map, Function.comp_def]
  · intro hne
    exact normFormFieldGroups_of_noEmpty _ hne

/-- C7 on the form `exampleForm`. -/
theorem C7_form_round_trip_witness :
    ∃ g, roundTripForm (fun _ : Unit => Except.ok JSON.null) (fun _ => ()) exampleForm
        = .ok (g, none) ∧
      g.Name = "Contact Us" ∧ g.FieldGroups.map List.length = some 1 :=
  let ⟨g, h1, h2, _, _, _, h6, _, _⟩ :=
    C7_form_round_trip (fun _ : Unit => Except.ok JSON.null) (fun _ => ()) exampleForm
      exampleForm_valid
  ⟨g, h1, h2, h6⟩

end RoundTripTheorems

section PagingTheorems

variable {Any Cfg Q W : Type}

theorem firstErr_none (e : Option UnmarshalTypeError) : firstErr e none = e := by
  cases e <;> rfl

theorem foldl_noField {α : Type} (fields : FieldTable α) (ms : List (String × JSON))
    (h : ∀ kv ∈ ms, fieldSetter fields kv.1 = noField)
    (acc : α × Option UnmarshalTypeError) :
    ms.foldl (fun acc kv => ((fieldSetter fields kv.1 kv.2 acc.1).1,
                             firstErr acc.2 (fieldSetter fields kv.1 kv.2 acc.1).2)) acc
      = acc := by
  induction ms generalizing acc with
  | nil => rfl
  | cons kv rest ih =>
    simp only [List.foldl_cons]
    rw [h kv (List.mem_cons_self _ _)]
    simp only [noField, firstErr_none]
    exact ih (fun kv1 h1 => h kv1 (List.mem_cons_of_mem _ h1)) acc

theorem fieldSetter_PagingNext_other (key : String) (h : foldName key ≠ foldName "after") :
    fieldSetter PagingNext.fieldTable key = noField := by
  have hk : ¬ "after" = key := fun e => h (by rw [← e])
  have hf : ¬ foldName "after" = foldName key := fun e => h e.symm
  simp [fieldSetter, PagingNext.fieldTable, matchField, findTag, hk, hf]

theorem fieldSetter_Paging_other (key : String) (h : foldName key ≠ foldName "next") :
    fieldSetter Paging.fieldTable key = noField := by
  have hk : ¬ "next" = key := fun e => h (by rw [← e])
  have hf : ¬ foldName "next" = foldName key := fun e => h e.symm
  simp [fieldSetter, Paging.fieldTable, matchField, findTag, hk, hf]

theorem fieldSetter_FormResponse_keeps_paging (decAny : JSON → Any) (key : String) (v : JSON)
    (x : FormResponse Any) (h : foldName key ≠ foldName "paging") :
    (fieldSetter (FormResponse.fieldTable decAny) key v x).1.Paging = x.Paging := by
  have hk : ¬ "paging" = key := fun e => h (by rw [← e])
  have hf : ¬ foldName "paging" = foldName key := fun e => h e.symm
  simp only [fieldSetter, FormResponse.fieldTable, List.map_cons, List.map_nil, matchField,
    findTag]
  by_cases h1 : "results" = key
  · simp [h1, assign]
  · by_cases h2 : foldName "results" = foldName key
    · simp [h1, h2, hk, assign]
    · simp [h1, h2, hk, hf, noField]

theorem foldl_keeps_paging (decAny : JSON → Any) (ms : List (String × JSON))
    (h : NoMemberNamed "paging" ms)
    (acc : FormResponse Any × Option UnmarshalTypeError) :
    (ms.foldl (fun acc kv =>
        ((fieldSetter (FormResponse.fieldTable decAny) kv.1 kv.2 acc.1).1,
         firstErr acc.2 (fieldSetter (FormResponse.fieldTable decAny) kv.1 kv.2 acc.1).2))
      acc).1.Paging = acc.1.Paging := by
  induction ms generalizing acc with
  | nil => rfl
  | cons kv rest ih =>
    simp only [List.foldl_cons]
    rw [ih (fun kv1 h1 => h kv1 (List.mem_cons_of_mem _ h1))]
    exact fieldSetter_FormResponse_keeps_paging decAny kv.1 kv.2 acc.1
      (h kv (List.mem_cons_self _ _))

theorem decPagingNext_noAfter (ns : List (String × JSON)) (hn : NoMemberNamed "after" ns) :
    decPagingNext (.obj ns) { After := "" } = ({ After := "" }, none) := by
  simp only [decPagingNext, decStruct]
  exact foldl_noField _ ns (fun kv hkv => fieldSetter_PagingNext_other kv.1 (hn kv hkv)) _

theorem decPagingNext_emptyAfter (ns1 ns2 : List (String × JSON))
    (hn : NoMemberNamed "after" (ns1 ++ ns2)) :
    decPagingNext (.obj (ns1 ++ ("after", .str "") :: ns2)) { After := "" }
      = ({ After := "" }, none) := by
  simp only [decPagingNext, decStruct, List.foldl_append, List.foldl_cons]
  rw [foldl_noField _ ns1
    (fun kv hkv => fieldSetter_PagingNext_other kv.1 (hn kv (List.mem_append_left _ hkv)))]
  simp only [fieldSetter_PagingNext_After, assign, decString, firstErr]
  exact foldl_noField _ ns2
    (fun kv hkv => fieldSetter_PagingNext_other kv.1 (hn kv (List.mem_append_right _ hkv))) _

theorem decPaging_noNext (ps : List (String × JSON)) (hp : NoMemberNamed "next" ps) :
    decPaging (.obj ps) { Next := { After := "" } } = ({ Next := { After := "" } }, none) := by
  simp only [decPaging, decStruct]
  exact foldl_noField _ ps (fun kv hkv => fieldSetter_Paging_other kv.1 (hp kv hkv)) _

theorem decPaging_next (ps1 ps2 : List (String × JSON)) (n : JSON)
    (hp : NoMemberNamed "next" (ps1 ++ ps2))
    (hn : decPagingNext n { After := "" } = ({ After := "" }, none)) :
    decPaging (.obj (ps1 ++ ("next", n) :: ps2)) { Next := { After := "" } }
      = ({ Next := { After := "" } }, none) := by
  simp only [decPaging, decStruct, List.foldl_append, List.foldl_cons]
  rw [foldl_noField _ ps1
    (fun kv hkv => fieldSetter_Paging_other kv.1 (hp kv (List.mem_append_left _ hkv)))]
  simp only [fieldSetter_Paging_Next, assign, hn, firstErr]
  exact foldl_noField _ ps2
    (fun kv hkv => fieldSetter_Paging_other kv.1 (hp kv (List.mem_append_right _ hkv))) _

theorem paging_step (decAny : JSON → Any) (p : JSON) (x : FormResponse Any)
    (hx : x.Paging = { Next := { After := "" } })
    (hp : decPaging p { Next := { After := "" } } = ({ Next := { After := "" } }, none)) :
    fieldSetter (FormResponse.fieldTable decAny) "paging" p x = (x, none) := by
  obtain ⟨r, pg⟩ := x
  simp only at hx
  subst hx
  simp [assign, hp]

theorem decFormResponse_paging (decAny : JSON → Any) (ms1 ms2 : List (String × JSON)) (p : JSON)
    (h : NoMemberNamed "paging" (ms1 ++ ms2))
    (hp : decPaging p { Next := { After := "" } } = ({ Next := { After := "" } }, none)) :
    decFormResponse decAny (.obj (ms1 ++ ("paging", p) :: ms2)) FormResponse.zero
      = decFormResponse decAny (bodyNoPaging ms1 ms2) FormResponse.zero := by
  simp only [decFormResponse, decStruct, List.foldl_append, List.foldl_cons, bodyNoPaging]
  have h1 := foldl_keeps_paging decAny ms1
    (fun kv hkv => h kv (List.mem_append_left _ hkv)) (FormResponse.zero, none)
  rw [paging_step decAny p _ h1 hp, firstErr_none]

theorem decFormResponse_after (decAny : JSON → Any) (ms : List (String × JSON))
    (h : NoMemberNamed "paging" ms) :
    (decFormResponse decAny (.obj ms) FormResponse.zero).1.Paging.Next.After = "" := by
  have := foldl_keeps_paging decAny ms h (FormResponse.zero, none)
  simp only [decFormResponse, decStruct]
  rw [this]
  rfl

theorem List_specTransport (decAny : JSON → Any) (body : JSON) (s : Ptr) (sv : FormServiceOp)
    (options : Option Q) (st : St Any Cfg Q W) (hs : st.heap.formService? s = some sv) :
    FormServiceOp.List (specTransport decAny (mockServer body)) s options st
      = .ok ((match (decFormResponse decAny body FormResponse.zero).2 with
              | some e => (none, some (TransportError.decode e))
              | none => (some (decFormResponse decAny body FormResponse.zero).1, none)),
             { heap := st.heap, world := st.world,
               log := st.log ++ [{ recv := sv.client, client := st.heap.client? sv.client,
                                   call := .Get sv.formPath .formResponse options }] }) := by
  simp only [FormServiceOp.List, hs, invoke, specTransport, mockServer, decodeTarget]
  cases (decFormResponse decAny body FormResponse.zero).2 <;> simp

/-- C9. Take a list response body, a JSON object, in four variants that differ only in
the paging cursor: `"after": ""` written out, no `after` member, no `next` member, no
`paging` member (the members shown are the only ones of their name, in any letter
case). Decoding into a new FormResponse gives the same value for the four, with
`Paging.Next.After` the empty string and hence the same `Results`; List over the
transport of the specification returns the same for the four bodies, and a response it
returns has the empty string as cursor. -/
theorem C9_empty_cursor_same_as_absent (decAny : JSON → Any)
    (ms1 ms2 ps1 ps2 ns1 ns2 : List (String × JSON))
    (s : Ptr) (sv : FormServiceOp) (options : Option Q) (st : St Any Cfg Q W)
    (hm : NoMemberNamed "paging" (ms1 ++ ms2)) (hp : NoMemberNamed "next" (ps1 ++ ps2))
    (hn : NoMemberNamed "after" (ns1 ++ ns2))
    (hs : st.heap.formService? s = some sv) :
    ∀ body, (body = bodyEmptyAfter ms1 ms2 ps1 ps2 ns1 ns2 ∨
             body = bodyNoAfter ms1 ms2 ps1 ps2 ns1 ns2 ∨
             body = bodyNoNext ms1 ms2 ps1 ps2 ∨ body = bodyNoPaging ms1 ms2) →
      (decFormResponse decAny body FormResponse.zero).1.Paging.Next.After = "" ∧
      decFormResponse decAny body FormResponse.zero
        = decFormResponse decAny (bodyNoPaging ms1 ms2) FormResponse.zero ∧
      (decFormResponse decAny body FormResponse.zero).1.Results
        = (decFormResponse decAny (bodyEmptyAfter ms1 ms2 ps1 ps2 ns1 ns2)
            FormResponse.zero).1.Results ∧
      FormServiceOp.List (specTransport decAny (mockServer body)) s options st
        = FormServiceOp.List (specTransport decAny (mockServer (bodyNoPaging ms1 ms2)))
            s options st ∧
      ∃ res st1,
        FormServiceOp.List (specTransport decAny (mockServer body)) s options st
          = .ok (res, st1) ∧
        (res.1 = none ↔ res.2 ≠ none) ∧
        ∀ resp, res.1 = some resp → resp.Paging.Next.After = "" := by
  have e1 : decFormResponse decAny (bodyEmptyAfter ms1 ms2 ps1 ps2 ns1 ns2) FormResponse.zero
      = decFormResponse decAny (bodyNoPaging ms1 ms2) FormResponse.zero :=
    decFormResponse_paging decAny ms1 ms2 _ hm
      (decPaging_next ps1 ps2 _ hp (decPagingNext_emptyAfter ns1 ns2 hn))
  have e2 : decFormResponse decAny (bodyNoAfter ms1 ms2 ps1 ps2 ns1 ns2) FormResponse.zero
      = decFormResponse decAny (bodyNoPaging ms1 ms2) FormResponse.zero :=
    decFormResponse_paging decAny ms1 ms2 _ hm
      (decPaging_next ps1 ps2 _ hp (decPagingNext_noAfter (ns1 ++ ns2) hn))
  have e3 : decFormResponse decAny (bodyNoNext ms1 ms2 ps1 ps2) FormResponse.zero
      = decFormResponse decAny (bodyNoPaging ms1 ms2) FormResponse.zero :=
    decFormResponse_paging decAny ms1 ms2 _ hm (decPaging_noNext (ps1 ++ ps2) hp)
  have hafter := decFormResponse_after decAny (ms1 ++ ms2) hm
  intro body hbody
  have hb : decFormResponse decAny body FormResponse.zero
      = decFormResponse decAny (bodyNoPaging ms1 ms2) FormResponse.zero := by
    rcases hbody with h | h | h | h <;> subst h
    · exact e1
    · exact e2
    · exact e3
    · rfl
  refine ⟨by rw [hb]; exact hafter, hb, by rw [hb, e1], ?_, ?_⟩
  · rw [List_specTransport decAny _ s sv options st hs,
      List_specTransport decAny _ s sv options st hs, hb]
  · rw [List_specTransport decAny _ s sv options st hs, hb]
    refine ⟨_, _, rfl, ?_, ?_⟩
    · cases (decFormResponse decAny (bodyNoPaging ms1 ms2) FormResponse.zero).2 <;> simp
    · intro resp hresp
      cases he : (decFormResponse decAny (bodyNoPaging ms1 ms2) FormResponse.zero).2 with
      | some e => rw [he] at hresp; simp at hresp
      | none =>
        rw [he] at hresp
        simp only [Option.some.injEq] at hresp
        subst hresp
        exact hafter

/-- C9 for the body `{"results": []}` and the variant with
`"paging": {"next": {"after": ""}}`. -/
theorem C9_empty_cursor_same_as_absent_witness :
    (decFormResponse (fun _ => ())
        (bodyEmptyAfter [("results", .arr [])] [] [] [] [] [])
        (FormResponse.zero : FormResponse Unit)).1.Paging.Next.After = "" ∧
    decFormResponse (fun _ => ())
        (bodyEmptyAfter [("results", .arr [])] [] [] [] [] [])
        (FormResponse.zero : FormResponse Unit)
      = decFormResponse (fun _ => ()) (bodyNoPaging [("results", .arr [])] [])
          FormResponse.zero :=
  have h := @C9_empty_cursor_same_as_absent Unit Unit Unit Unit
    (fun _ : JSON => ()) [("results", .arr [])] [] [] [] [] [] (some 1)
    { client := some 0, formPath := "marketing/v3/forms" } none exampleSt
    (by intro kv hkv; simp at hkv; subst hkv; decide)
    (by intro kv hkv; simp at hkv) (by intro kv hkv; simp at hkv) rfl
    (bodyEmptyAfter [("results", .arr [])] [] [] [] [] []) (Or.inl rfl)
  ⟨h.1, h.2.1⟩

end PagingTheorems

end Hubspot
